import Mathlib

/-!
Verification development for the c14vm lexical scanner and backtracking
recursive-descent parser (src/src/scanner.c, src/src/parser.c, with the
type and helper definitions of src/prv/scanner.h and src/prv/parser.h).
Code units are modelled as `Nat` (the C `char16_t` values), machine sizes
as `Nat` (no arithmetic in the code can overflow on the inputs considered:
all quantities are bounded by the source length), and the C `int` error
codes as the inductive `Err` plus `Except`.  A call to `exit(0)` inside
the scanner or parser (the "unsup"/TODO paths) terminates the process;
it is modelled as the distinguished result `fatal`.
-/

set_option maxRecDepth 400000

/-- Modelled from the spec: the error taxonomy of pub/error.h (the header is
not part of the sources).  `ERR_SUCCESS` is represented by `Except.ok`; all
other codes are distinct non-zero values, represented as constructors. -/
inductive Err where
  | noMemory
  | badFile
  | noMatch
  | endOfFile
  | invalidToken
  | invalidParameter
  deriving DecidableEq, Repr

/-- Modelled from the spec: `bits_on` of pub/bits.h for a one-bit field at
bit position `pos` (all fields used here are one bit wide). -/
def bits_on (pos : Nat) : Nat := 2 ^ pos

/-- Modelled from the spec: `x | bits_on(pos)`, setting a one-bit field. -/
def bits_set (x pos : Nat) : Nat := x ||| 2 ^ pos

/-- Modelled from the spec: `x & bits_off(pos)`, clearing a one-bit field. -/
def bits_clear (x pos : Nat) : Nat := x - (if x.testBit pos then 2 ^ pos else 0)

/-- Modelled from the spec: `bits_get` of pub/bits.h for a one-bit field. -/
def bits_get (x pos : Nat) : Bool := x.testBit pos

/-- Token flag bit positions, from src/prv/scanner.h. -/
def TF_UNC_SEQ_POS : Nat := 0
def TF_HEX_SEQ_POS : Nat := 1
def TF_NL_PFX_POS : Nat := 2

/-- Grammar parameter bit positions, from src/prv/parser.h. -/
def GP_SEP_POS : Nat := 0
def GP_YIELD_POS : Nat := 1
def GP_AWAIT_POS : Nat := 2
def GP_TAGGED_POS : Nat := 3
def GP_IN_POS : Nat := 4
def GP_RETURN_POS : Nat := 5
def GP_DEFAULT_POS : Nat := 6

/-!
The `enum token_type` of src/prv/scanner.h as `Nat` ordinals, in the
declaration order of the header (C enumerators count from 0).
-/

def TOKEN_INVALID : Nat := 0
def TOKEN_NEW_LINE : Nat := 1
def TOKEN_STRING : Nat := 2
def TOKEN_NUMBER : Nat := 3
def TOKEN_LEFT_PAREN : Nat := 4
def TOKEN_LEFT_BRACE : Nat := 5
def TOKEN_LEFT_BRACKET : Nat := 6
def TOKEN_RIGHT_PAREN : Nat := 7
def TOKEN_RIGHT_BRACE : Nat := 8
def TOKEN_RIGHT_BRACKET : Nat := 9
def TOKEN_PLUS : Nat := 10
def TOKEN_MINUS : Nat := 11
def TOKEN_DIV : Nat := 12
def TOKEN_MUL : Nat := 13
def TOKEN_MOD : Nat := 14
def TOKEN_EXP : Nat := 15
def TOKEN_NUMBER_SIGN : Nat := 16
def TOKEN_DOT : Nat := 17
def TOKEN_QUOTE : Nat := 18
def TOKEN_DOUBLE_QUOTE : Nat := 19
def TOKEN_BACK_QUOTE : Nat := 20
def TOKEN_COLON : Nat := 21
def TOKEN_SEMI_COLON : Nat := 22
def TOKEN_COMMA : Nat := 23
def TOKEN_ARROW : Nat := 24
def TOKEN_QUESTION_DOT : Nat := 25
def TOKEN_EQUALS : Nat := 26
def TOKEN_DOUBLE_EQUALS : Nat := 27
def TOKEN_TRIPLE_EQUALS : Nat := 28
def TOKEN_MUL_EQUALS : Nat := 29
def TOKEN_MOD_EQUALS : Nat := 30
def TOKEN_DIV_EQUALS : Nat := 31
def TOKEN_PLUS_EQUALS : Nat := 32
def TOKEN_MINUS_EQUALS : Nat := 33
def TOKEN_EXP_EQUALS : Nat := 34
def TOKEN_SHL_EQUALS : Nat := 35
def TOKEN_SHR_EQUALS : Nat := 36
def TOKEN_SAR_EQUALS : Nat := 37
def TOKEN_LOGICAL_OR_EQUALS : Nat := 38
def TOKEN_LOGICAL_AND_EQUALS : Nat := 39
def TOKEN_BITWISE_AND_EQUALS : Nat := 40
def TOKEN_BITWISE_XOR_EQUALS : Nat := 41
def TOKEN_BITWISE_OR_EQUALS : Nat := 42
def TOKEN_COALESCE_EQUALS : Nat := 43
def TOKEN_IDENTIFIER : Nat := 44
def TOKEN_AS : Nat := 45
def TOKEN_ASYNC : Nat := 46
def TOKEN_AWAIT : Nat := 47
def TOKEN_BREAK : Nat := 48
def TOKEN_CASE : Nat := 49
def TOKEN_CATCH : Nat := 50
def TOKEN_CLASS : Nat := 51
def TOKEN_CONST : Nat := 52
def TOKEN_CONTINUE : Nat := 53
def TOKEN_DEBUGGER : Nat := 54
def TOKEN_DEFAULT : Nat := 55
def TOKEN_DELETE : Nat := 56
def TOKEN_DO : Nat := 57
def TOKEN_ELSE : Nat := 58
def TOKEN_ENUM : Nat := 59
def TOKEN_EXPORT : Nat := 60
def TOKEN_EXTENDS : Nat := 61
def TOKEN_FALSE : Nat := 62
def TOKEN_FINALLY : Nat := 63
def TOKEN_FOR : Nat := 64
def TOKEN_FROM : Nat := 65
def TOKEN_FUNCTION : Nat := 66
def TOKEN_GET : Nat := 67
def TOKEN_IF : Nat := 68
def TOKEN_IMPLEMENTS : Nat := 69
def TOKEN_IMPORT : Nat := 70
def TOKEN_IN : Nat := 71
def TOKEN_INSTANCEOF : Nat := 72
def TOKEN_INTERFACE : Nat := 73
def TOKEN_LET : Nat := 74
def TOKEN_META : Nat := 75
def TOKEN_NEW : Nat := 76
def TOKEN_NULL : Nat := 77
def TOKEN_OF : Nat := 78
def TOKEN_PACKAGE : Nat := 79
def TOKEN_PRIVATE : Nat := 80
def TOKEN_PROTECTED : Nat := 81
def TOKEN_PUBLIC : Nat := 82
def TOKEN_RETURN : Nat := 83
def TOKEN_SET : Nat := 84
def TOKEN_STATIC : Nat := 85
def TOKEN_SUPER : Nat := 86
def TOKEN_SWITCH : Nat := 87
def TOKEN_TARGET : Nat := 88
def TOKEN_THIS : Nat := 89
def TOKEN_THROW : Nat := 90
def TOKEN_TRUE : Nat := 91
def TOKEN_TRY : Nat := 92
def TOKEN_TYPEOF : Nat := 93
def TOKEN_VAR : Nat := 94
def TOKEN_VOID : Nat := 95
def TOKEN_WHILE : Nat := 96
def TOKEN_WITH : Nat := 97
def TOKEN_YIELD : Nat := 98
def SCRIPT : Nat := 99
def SCRIPT_BODY : Nat := 100
def STATEMENT_LIST : Nat := 101
def STATEMENT_LIST_ITEM : Nat := 102
def STATEMENT : Nat := 103
def DECLARATION : Nat := 104
def BLOCK_STATEMENT : Nat := 105
def VARIABLE_STATEMENT : Nat := 106
def EMPTY_STATEMENT : Nat := 107
def EXPRESSION_STATEMENT : Nat := 108
def IF_STATEMENT : Nat := 109
def BREAKABLE_STATEMENT : Nat := 110
def CONTINUE_STATEMENT : Nat := 111
def BREAK_STATEMENT : Nat := 112
def RETURN_STATEMENT : Nat := 113
def WITH_STATEMENT : Nat := 114
def LABELLED_STATEMENT : Nat := 115
def THROW_STATEMENT : Nat := 116
def TRY_STATEMENT : Nat := 117
def DEBUGGER_STATEMENT : Nat := 118
def BLOCK : Nat := 119
def VARIABLE_DECLARATION_LIST : Nat := 120
def VARIABLE_DECLARATION : Nat := 121
def BINDING_IDENTIFIER : Nat := 122
def BINDING_PATTERN : Nat := 123
def INITIALIZER : Nat := 124
def ASSIGNMENT_EXPRESSION : Nat := 125
def LHS_EXPRESSION : Nat := 126
def CONDITIONAL_EXPRESSION : Nat := 127
def YIELD_EXPRESSION : Nat := 128
def ARROW_FUNCTION : Nat := 129
def ASYNC_ARROW_FUNCTION : Nat := 130
def IDENTIFIER_NAME : Nat := 131
def OPTIONAL_EXPRESSION : Nat := 132
def CALL_EXPRESSION : Nat := 133
def NEW_EXPRESSION : Nat := 134
def MEMBER_EXPRESSION : Nat := 135
def ARGUMENTS : Nat := 136
def EXPRESSION : Nat := 137
def OPTIONAL_CHAIN : Nat := 138
def ARRAY_EXPRESSION : Nat := 139
def TEMPLATE_LITERAL : Nat := 140
def PRIVATE_IDENTIFIER : Nat := 141
def CALL_MEMBER_EXPRESSION : Nat := 142
def CALL_EXPRESSION_POST : Nat := 143
def OPTIONAL_CHAIN_POST : Nat := 144
def SUPER_CALL : Nat := 145
def IMPORT_CALL : Nat := 146
def SUPER_PROPERTY : Nat := 147
def META_PROPERTY : Nat := 148
def PRIMARY_EXPRESSION : Nat := 149
def MEMBER_EXPRESSION_POST : Nat := 150
def DOT_IDENTIFIER_NAME : Nat := 151
def DOT_PRIVATE_IDENTIFIER : Nat := 152
def IMPORT_META : Nat := 153
def NEW_TARGET : Nat := 154
def NUMERIC_LITERAL : Nat := 155
def STRING_LITERAL : Nat := 156
def ARRAY_LITERAL : Nat := 157
def OBJECT_LITERAL : Nat := 158
def FUNCTION_EXPRESSION : Nat := 159
def CLASS_EXPRESSION : Nat := 160
def GENERATOR_EXPRESSION : Nat := 161
def ASYNC_FUNCTION_EXPRESSION : Nat := 162
def ASYNC_GENERATOR_EXPRESSION : Nat := 163
def REGEXP_LITERAL : Nat := 164
def PARENTHESIZED_EXPRESSION : Nat := 165
def IDENTIFIER_REFERENCE : Nat := 166

/-- Code units of a Lean string literal, used to write concrete source
buffers and the keyword table (all characters used lie in plane 0, so one
`Char` is one `char16_t` code unit). -/
def str2cus (s : String) : List Nat := s.data.map Char.toNat

/-- The keyword table `g_key_words` of src/src/scanner.c, in table order. -/
def g_key_words : List (List Nat) :=
  [str2cus "as", str2cus "async", str2cus "await", str2cus "break",
   str2cus "case", str2cus "catch", str2cus "class", str2cus "const",
   str2cus "continue", str2cus "debugger", str2cus "default",
   str2cus "delete", str2cus "do", str2cus "else", str2cus "enum",
   str2cus "export", str2cus "extends", str2cus "false", str2cus "finally",
   str2cus "for", str2cus "from", str2cus "function", str2cus "get",
   str2cus "if", str2cus "implements", str2cus "import", str2cus "in",
   str2cus "instanceof", str2cus "interface", str2cus "let",
   str2cus "meta", str2cus "new", str2cus "null", str2cus "of",
   str2cus "package", str2cus "private", str2cus "protected",
   str2cus "public", str2cus "return", str2cus "set", str2cus "static",
   str2cus "super", str2cus "switch", str2cus "target", str2cus "this",
   str2cus "throw", str2cus "true", str2cus "try", str2cus "typeof",
   str2cus "var", str2cus "void", str2cus "while", str2cus "with",
   str2cus "yield"]

/-- Modelled from the spec: `is_line_terminator` of pub/unicode.h (the
header is not part of the sources): LF, CR, LS, PS. -/
def is_line_terminator (cu : Nat) : Bool :=
  cu == 0xA || cu == 0xD || cu == 0x2028 || cu == 0x2029

/-- Modelled from the spec: `is_white_space` of pub/unicode.h: TAB, VT,
FF, SP, NBSP, ZWNBSP. -/
def is_white_space (cu : Nat) : Bool :=
  cu == 0x9 || cu == 0xB || cu == 0xC || cu == 0x20 ||
  cu == 0xA0 || cu == 0xFEFF

/-- Modelled from the spec: the identifier-start class of pub/unicode.h,
restricted to the code points exercised here (ASCII letters, underscore,
dollar sign). -/
def is_id_start (cu : Nat) : Bool :=
  (0x61 ≤ cu && cu ≤ 0x7A) || (0x41 ≤ cu && cu ≤ 0x5A) ||
  cu == 0x5F || cu == 0x24

/-- Modelled from the spec: the identifier-continue class of pub/unicode.h,
restricted likewise (identifier-start plus ASCII digits). -/
def is_id_continue (cu : Nat) : Bool :=
  is_id_start cu || (0x30 ≤ cu && cu ≤ 0x39)

/-- Modelled from the spec: `is_high_surrogate` of pub/unicode.h. -/
def is_high_surrogate (cu : Nat) : Bool := 0xD800 ≤ cu && cu ≤ 0xDBFF

/-- Modelled from the spec: `is_low_surrogate` of pub/unicode.h. -/
def is_low_surrogate (cu : Nat) : Bool := 0xDC00 ≤ cu && cu ≤ 0xDFFF

/-- `struct token_location` of src/prv/scanner.h. -/
structure TokenLocation where
  file_row : Nat
  file_col : Nat
  scan_pos : Nat
  deriving DecidableEq, Repr

/-- `struct token` of src/prv/scanner.h.  The C `cooked` pointer is NULL
exactly when no cooked text was accumulated, so it is modelled as the
(possibly empty) list of accumulated code units. -/
structure Token where
  locn : TokenLocation
  raw_len : Nat
  cooked : List Nat
  flags : Nat
  type : Nat
  deriving DecidableEq, Repr

/-- `token_set_cooked` of src/prv/scanner.h. -/
def token_set_cooked (t : Token) (cooked : List Nat) : Token :=
  { t with cooked := cooked }

/-- `token_type_is_reserved_word` of src/prv/scanner.h. -/
def token_type_is_reserved_word (ty : Nat) : Bool :=
  TOKEN_AS ≤ ty && ty ≤ TOKEN_YIELD

/-- `token_is_reserved_word` of src/prv/scanner.h. -/
def token_is_reserved_word (t : Token) : Bool :=
  token_type_is_reserved_word t.type

/-- `token_has_unc_esc` of src/prv/scanner.h. -/
def token_has_unc_esc (t : Token) : Bool := bits_get t.flags TF_UNC_SEQ_POS

/-- `token_has_hex_esc` of src/prv/scanner.h. -/
def token_has_hex_esc (t : Token) : Bool := bits_get t.flags TF_HEX_SEQ_POS

/-- `token_has_new_line_pfx` of src/prv/scanner.h. -/
def token_has_new_line_pfx (t : Token) : Bool := bits_get t.flags TF_NL_PFX_POS

/-- `token_is_identifier_name` of src/prv/scanner.h. -/
def token_is_identifier_name (t : Token) : Bool :=
  !(t.type != TOKEN_IDENTIFIER && !token_is_reserved_word t)

/-- `token_is_reserved_literal` of src/prv/scanner.h: a reserved word whose
spelling carries no unicode-escape decoration. -/
def token_is_reserved_literal (t : Token) : Bool :=
  !(!token_is_reserved_word t || token_has_unc_esc t)

/-- `struct scanner` of src/prv/scanner.h.  `src_len` is `src.length`. -/
structure Scanner where
  src : List Nat
  prev_token_type : Nat
  curr_locn : TokenLocation
  save_locn : TokenLocation
  deriving DecidableEq, Repr

/-- `scanner_new` of src/src/scanner.c (`calloc` zeroes every field). -/
def scanner_new (src : List Nat) : Scanner :=
  { src := src
    prev_token_type := TOKEN_INVALID
    curr_locn := ⟨0, 0, 0⟩
    save_locn := ⟨0, 0, 0⟩ }

/-- `scanner_is_end` of src/src/scanner.c. -/
def scanner_is_end (s : Scanner) (pos : Nat) : Bool := s.src.length ≤ pos

/-- `scanner_peek` of src/src/scanner.c.  The C overflow test
`pos < scan_pos` cannot fire over `Nat`. -/
def scanner_peek (s : Scanner) (offset : Nat) : Except Err Nat :=
  let pos := s.curr_locn.scan_pos + offset
  if scanner_is_end s pos then .error .endOfFile
  else .ok (s.src.getD pos 0)

/-- `scanner_consume` of src/src/scanner.c: advance by up to `numUnits`
code units, counting columns once per surrogate pair and canonicalizing
CR and CRLF to a single logical line terminator. -/
def scanner_consume (s : Scanner) : Nat → Scanner
  | 0 => s
  | n + 1 =>
    let locn := s.curr_locn
    if scanner_is_end s locn.scan_pos then s
    else
      let cu := s.src.getD locn.scan_pos 0
      let pos1 := locn.scan_pos + 1
      if is_low_surrogate cu && 2 ≤ pos1 &&
          is_high_surrogate (s.src.getD (pos1 - 2) 0) then
        scanner_consume { s with curr_locn := { locn with scan_pos := pos1 } } n
      else
        let col1 := locn.file_col + 1
        let pos2 :=
          if cu == 0xD && !scanner_is_end s pos1 && s.src.getD pos1 0 == 0xA
          then pos1 + 1 else pos1
        let cu2 := if cu == 0xD then 0xA else cu
        let locn2 :=
          if cu2 == 0xA then
            { file_row := locn.file_row + 1, file_col := 0, scan_pos := pos2 }
          else
            { file_row := locn.file_row, file_col := col1, scan_pos := pos2 }
        scanner_consume { s with curr_locn := locn2 } n

/-!
The scanner loops below take an explicit `gas` argument so that every
definition is structurally recursive (and hence reduces by `rfl`).  The
zero-gas base case coincides with the loop's input-exhausted exit, and
every loop consumes at least one code unit per iteration while input
remains, so the `src.length + 1` gas supplied at each call site is always
sufficient: the fuelled definitions compute exactly the C loops.
-/

/-- Loop of `scanner_skip_single_line_comment` of src/src/scanner.c. -/
def scanner_slc_loop (s : Scanner) : Nat → Scanner
  | 0 => s
  | g + 1 =>
    match scanner_peek s 0 with
    | .error _ => s
    | .ok cu =>
      if is_line_terminator cu then s
      else scanner_slc_loop (scanner_consume s 1) g

/-- `scanner_skip_single_line_comment` of src/src/scanner.c. -/
def scanner_skip_single_line_comment (s : Scanner) : Scanner :=
  let s := scanner_consume s 2
  scanner_slc_loop s (s.src.length + 1)

/-- Loop of `scanner_skip_multi_line_comment` of src/src/scanner.c; the
carried booleans are `has_new_line` and `half_close_seen`. -/
def scanner_mlc_loop (s : Scanner) (hasNL halfClose : Bool) :
    Nat → Scanner × Bool
  | 0 => (s, hasNL)
  | g + 1 =>
    match scanner_peek s 0 with
    | .error _ => (s, hasNL)
    | .ok cu =>
      let s := scanner_consume s 1
      if is_line_terminator cu then scanner_mlc_loop s true false g
      else if cu == 0x2A then scanner_mlc_loop s hasNL true g
      else if cu == 0x2F && halfClose then (s, hasNL)
      else scanner_mlc_loop s hasNL false g

/-- `scanner_skip_multi_line_comment` of src/src/scanner.c. -/
def scanner_skip_multi_line_comment (s : Scanner) : Scanner × Bool :=
  let s := scanner_consume s 2
  scanner_mlc_loop s false false (s.src.length + 1)

/-- Loop of `scanner_skip_white_space` of src/src/scanner.c: skip
whitespace, line terminators, `//` and `/* ... */` comments, and a `#!`
comment at absolute position 0; report whether a line terminator was
crossed. -/
def scanner_sws_loop (s : Scanner) (hasNL : Bool) : Nat → Scanner × Bool
  | 0 => (s, hasNL)
  | g + 1 =>
    match scanner_peek s 0 with
    | .error _ => (s, hasNL)
    | .ok cu =>
      if is_white_space cu || is_line_terminator cu then
        scanner_sws_loop (scanner_consume s 1)
          (if is_line_terminator cu then true else hasNL) g
      else if cu != 0x23 && cu != 0x2F then (s, hasNL)
      else if cu == 0x23 && s.curr_locn.scan_pos != 0 then (s, hasNL)
      else
        match scanner_peek s 1 with
        | .error _ => (s, hasNL)
        | .ok t =>
          if cu == 0x23 then
            if t == 0x21 then
              scanner_sws_loop (scanner_skip_single_line_comment s) hasNL g
            else (s, hasNL)
          else if t == 0x2F then
            scanner_sws_loop (scanner_skip_single_line_comment s) hasNL g
          else if t == 0x2A then
            -- the C `else break` also fires when the multi-line comment
            -- crossed no line terminator: the comment is consumed (the
            -- call ran) but the skip loop exits
            let r := scanner_skip_multi_line_comment s
            if r.2 then scanner_sws_loop r.1 true g
            else (r.1, hasNL)
          else (s, hasNL)

/-- `scanner_skip_white_space` of src/src/scanner.c. -/
def scanner_skip_white_space (s : Scanner) : Scanner × Bool :=
  scanner_sws_loop s false (s.src.length + 1)

/-- `scanner_build_token` of src/src/scanner.c: stamp the saved location,
the raw length, and the newline-prefixed flag when the previous token type
records a crossed line terminator. -/
def scanner_build_token (s : Scanner) (ty flags : Nat) : Token :=
  let flags :=
    if s.prev_token_type == TOKEN_NEW_LINE then flags ||| bits_on TF_NL_PFX_POS
    else flags
  { locn := s.save_locn
    raw_len := s.curr_locn.scan_pos - s.save_locn.scan_pos
    cooked := []
    flags := flags
    type := ty }

/-- Result of a scanner operation: a new scanner state with a token or an
error code, or process termination (the C `exit(0)` TODO paths). -/
inductive SRes where
  | fatal
  | res (s : Scanner) (r : Except Err Token)
  deriving Repr

/-- Result of the string-scanning loop. -/
inductive StrRes where
  | fatal
  | serr (s : Scanner) (e : Err)
  | sok (s : Scanner) (acc : List Nat)
  deriving DecidableEq, Repr

/-- The SingleEscapeCharacter decoding chain of `scanner_scan_string` of
src/src/scanner.c: the quote/backslash escapes decode to themselves and
`b f n r t v` to their control characters; any other escape class reaches
the C TODO path. -/
def single_escape_char (cu : Nat) : Option Nat :=
  if cu == 0x27 || cu == 0x22 || cu == 0x5C then some cu
  else if cu == 0x62 then some 0x8
  else if cu == 0x66 then some 0xC
  else if cu == 0x6E then some 0xA
  else if cu == 0x72 then some 0xD
  else if cu == 0x74 then some 0x9
  else if cu == 0x76 then some 0xB
  else none

/-- Loop of `scanner_scan_string` of src/src/scanner.c: accumulate cooked
code units until the matching quote; a raw CR or LF is `ERR_INVALID_TOKEN`,
exhausted input surfaces the peek error (`ERR_END_OF_FILE`), a backslash
line continuation is elided, the single-escape set is decoded, and every
other escape reaches the C TODO path, which terminates the process. -/
def scanner_str_loop (s : Scanner) (dq : Bool) (acc : List Nat) :
    Nat → StrRes
  | 0 => .serr s .endOfFile
  | g + 1 =>
    match scanner_peek s 0 with
    | .error e => .serr s e
    | .ok cu =>
      let s := scanner_consume s 1
      if dq && cu == 0x22 then .sok s acc
      else if !dq && cu == 0x27 then .sok s acc
      else if cu == 0xD || cu == 0xA then .serr s .invalidToken
      else if cu != 0x5C then scanner_str_loop s dq (acc ++ [cu]) g
      else
        match scanner_peek s 0 with
        | .error e => .serr s e
        | .ok cu2 =>
          let s := scanner_consume s 1
          if is_line_terminator cu2 then scanner_str_loop s dq acc g
          else
            match single_escape_char cu2 with
            | some d => scanner_str_loop s dq (acc ++ [d]) g
            | none => .fatal

/-- `scanner_scan_string` of src/src/scanner.c. -/
def scanner_scan_string (s : Scanner) : SRes :=
  match scanner_peek s 0 with
  | .error e => .res s (.error e)
  | .ok cu =>
    let s := scanner_consume s 1
    let dq := cu == 0x22
    match scanner_str_loop s dq [] (s.src.length + 1) with
    | .fatal => .fatal
    | .serr s2 e => .res s2 (.error e)
    | .sok s2 acc =>
      .res s2 (.ok (token_set_cooked (scanner_build_token s2 TOKEN_STRING 0) acc))

/-- Loop of `scanner_scan_equals` of src/src/scanner.c: greedy longest
match among `=`, `==`, `===`, `=>` (0 is a sentinel for "no extension
matched"; no token type extends `=` to 0). -/
def scanner_eq_loop (s : Scanner) (ty : Nat) : Nat → Scanner × Nat
  | 0 => (s, ty)
  | g + 1 =>
    match scanner_peek s 0 with
    | .error _ => (s, ty)
    | .ok cu =>
      let ty2 :=
        if ty == TOKEN_EQUALS && cu == 0x3D then TOKEN_DOUBLE_EQUALS
        else if ty == TOKEN_EQUALS && cu == 0x3E then TOKEN_ARROW
        else if ty == TOKEN_DOUBLE_EQUALS && cu == 0x3D then TOKEN_TRIPLE_EQUALS
        else 0
      if ty2 == 0 then (s, ty)
      else
        let s := scanner_consume s 1
        if ty2 != TOKEN_DOUBLE_EQUALS then (s, ty2)
        else scanner_eq_loop s ty2 g

/-- `scanner_scan_equals` of src/src/scanner.c. -/
def scanner_scan_equals (s : Scanner) : SRes :=
  let s := scanner_consume s 1
  let r := scanner_eq_loop s TOKEN_EQUALS (s.src.length + 1)
  .res r.1 (.ok (scanner_build_token r.1 r.2 0))

/-- Result of the identifier-accumulation loop. -/
inductive IdRes where
  | fatal
  | idres (s : Scanner) (acc : List Nat)
  deriving DecidableEq, Repr

/-- Loop of `scanner_scan_identifier` of src/src/scanner.c: accumulate an
identifier-start code unit followed by identifier-continue code units;
surrogate halves end the accumulation, and a backslash reaches the C TODO
escape path, which terminates the process. -/
def scanner_id_loop (s : Scanner) (acc : List Nat) : Nat → IdRes
  | 0 => .idres s acc
  | g + 1 =>
    match scanner_peek s 0 with
    | .error _ => .idres s acc
    | .ok cu =>
      if is_low_surrogate cu || is_high_surrogate cu then .idres s acc
      else if cu == 0x5C then .fatal
      else if acc.isEmpty && !is_id_start cu then .idres s acc
      else if !acc.isEmpty && !is_id_continue cu then .idres s acc
      else scanner_id_loop (scanner_consume s 1) (acc ++ [cu]) g

/-- The keyword search of `scanner_scan_identifier` of src/src/scanner.c:
index of the first table entry whose whole spelling equals the
accumulated text (the C inner loop compares code units up to the
accumulated length and then requires the table entry's terminating NUL). -/
def kw_find : List (List Nat) → List Nat → Option Nat
  | [], _ => none
  | k :: ks, acc =>
    if acc = k then some 0 else (kw_find ks acc).map (fun i => i + 1)

/-- `scanner_scan_identifier` of src/src/scanner.c: accumulate, reject an
empty accumulation, remap an exact keyword spelling to its dedicated token
type `TOKEN_IDENTIFIER + index + 1`, and attach the cooked text only to a
generic identifier token. -/
def scanner_scan_identifier (s : Scanner) : SRes :=
  match scanner_id_loop s [] (s.src.length + 1) with
  | .fatal => .fatal
  | .idres s2 acc =>
    if acc.isEmpty then .res s2 (.error .invalidToken)
    else
      let ty :=
        match kw_find g_key_words acc with
        | some i => TOKEN_IDENTIFIER + i + 1
        | none => TOKEN_IDENTIFIER
      let tok := scanner_build_token s2 ty 0
      let tok := if ty == TOKEN_IDENTIFIER then token_set_cooked tok acc else tok
      .res s2 (.ok tok)

/-- `scanner_scan_next_token` of src/src/scanner.c: record the token start
in `save_locn` and dispatch on the next code unit; any code unit that is
not a quote, `=`, or identifier-start reaches the C "unsup" path, which
terminates the process. -/
def scanner_scan_next_token (s : Scanner) : SRes :=
  let s := { s with save_locn := s.curr_locn }
  match scanner_peek s 0 with
  | .error e => .res s (.error e)
  | .ok cu =>
    if cu == 0x22 || cu == 0x27 then scanner_scan_string s
    else if cu == 0x3D then scanner_scan_equals s
    else if is_id_start cu then scanner_scan_identifier s
    else .fatal

/-- `scanner_get_next_token` of src/src/scanner.c: skip whitespace and
comments, latch `prev_token_type := TOKEN_NEW_LINE` when a line terminator
was crossed, scan one token, and restore `curr_locn` on error. -/
def scanner_get_next_token (s : Scanner) : SRes :=
  let r := scanner_skip_white_space s
  let s := if r.2 then { r.1 with prev_token_type := TOKEN_NEW_LINE } else r.1
  match scanner_scan_next_token s with
  | .fatal => .fatal
  | .res s2 (.error e) => .res { s2 with curr_locn := s2.save_locn } (.error e)
  | .res s2 (.ok tok) => .res s2 (.ok tok)

/-- `struct parse_node` of src/prv/parser.h: a grammar-symbol tag, optional
cooked text (the NULL pointer is the empty list), and the ordered child
list (`list_add_tail` appends at the tail). -/
inductive ParseNode where
  | mk (type : Nat) (cooked : List Nat) (nodes : List ParseNode)
  deriving Repr

/-- Tag of a parse node (`parse_node_type` of src/prv/parser.h). -/
def ParseNode.type : ParseNode → Nat
  | .mk t _ _ => t

/-- Cooked text of a parse node. -/
def ParseNode.cooked : ParseNode → List Nat
  | .mk _ c _ => c

/-- Children of a parse node. -/
def ParseNode.nodes : ParseNode → List ParseNode
  | .mk _ _ ns => ns

/-- `parse_node_new` of src/src/parser.c (allocation is modelled as always
succeeding). -/
def parse_node_new (ty : Nat) : ParseNode := .mk ty [] []

/-- `parse_node_add_child` of src/prv/parser.h. -/
def parse_node_add_child (n c : ParseNode) : ParseNode :=
  .mk n.type n.cooked (n.nodes ++ [c])

/-- `parse_node_set_cooked` of src/prv/parser.h. -/
def parse_node_set_cooked (n : ParseNode) (ck : List Nat) : ParseNode :=
  .mk n.type ck n.nodes

/-- Modelled from the spec: `parse_node_is_reserved_word` (the helper is
not among the sources; it mirrors `token_type_is_reserved_word` of
src/prv/scanner.h on the node's tag, which the reserved-word pass-through
of the IDENTIFIER_NAME handler sets to the keyword's token type). -/
def parse_node_is_reserved_word (n : ParseNode) : Bool :=
  token_type_is_reserved_word n.type

/-- Modelled from the spec: `parse_node_has_children` (the helper is not
among the sources; the intrusive child list is non-empty). -/
def parse_node_has_children (n : ParseNode) : Bool := !n.nodes.isEmpty

/-- `struct parser` of src/prv/parser.h: the owned scanner and the
append-only token cache (`num_tokens` is `tokens.length`; the surviving
root is returned by `parser_parse_script` below rather than stored). -/
structure Parser where
  scanner : Scanner
  tokens : List Token
  deriving Repr

/-- `parser_new` of src/src/parser.c. -/
def parser_new (src : List Nat) : Parser :=
  { scanner := scanner_new src, tokens := [] }

/-- Placeholder token for the guarded cache read (never observed). -/
def dummy_token : Token :=
  { locn := ⟨0, 0, 0⟩, raw_len := 0, cooked := [], flags := 0, type := 0 }

/-- Result of `parser_get_token`: a new parser state with the token and
the advanced cursor, or an error, or process termination from inside the
scanner. -/
inductive GRes where
  | fatal
  | gres (p : Parser) (r : Except Err (Token × Nat))
  deriving Repr

/-- `parser_get_token` of src/src/parser.c: an already-cached cursor is
served from the cache, the cursor equal to the cache end pulls exactly one
token from the scanner and appends it, and a larger cursor is
`ERR_INVALID_PARAMETER` (allocation is modelled as always succeeding). -/
def parser_get_token (p : Parser) (pos : Nat) : GRes :=
  let num := p.tokens.length
  if num < pos then .gres p (.error .invalidParameter)
  else if pos == num then
    match scanner_get_next_token p.scanner with
    | .fatal => .fatal
    | .res s (.error e) => .gres { p with scanner := s } (.error e)
    | .res s (.ok tok) =>
      .gres { scanner := s, tokens := p.tokens ++ [tok] } (.ok (tok, pos + 1))
  else .gres p (.ok (p.tokens.getD pos dummy_token, pos + 1))

/-- Result of `parser_parse`: process termination, exhausted fuel (a model
artifact only; every concrete run below is given ample fuel), or a parser
state, an out-cursor and either a parse node or an error code. -/
inductive PRes (α : Type) where
  | fatal
  | fuelOut
  | out (p : Parser) (q : Nat) (r : Except Err α)
  deriving Repr

/-- Sequencing within one alternative: `if (err) break;` followed by the
rest of the handler. -/
def pok {α β : Type} (r : PRes α) (k : Parser → Nat → α → PRes β) : PRes β :=
  match r with
  | .fatal => .fatal
  | .fuelOut => .fuelOut
  | .out p q (.error e) => .out p q (.error e)
  | .out p q (.ok a) => k p q a

/-- Ordered choice: `if (err == ERR_NO_MATCH) { err = parser_parse(...); }`
— the next alternative runs only after a NoMatch. -/
def palt {α : Type} (r : PRes α) (k : Parser → Nat → PRes α) : PRes α :=
  match r with
  | .out p q (.error .noMatch) => k p q
  | r => r

/-- End of a handler whose last sub-parse leaves its node in `child` for
the success epilogue to attach. -/
def pfin (r : PRes ParseNode) (node : ParseNode) :
    PRes (ParseNode × Option ParseNode) :=
  match r with
  | .fatal => .fatal
  | .fuelOut => .fuelOut
  | .out p q (.error e) => .out p q (.error e)
  | .out p q (.ok c) => .out p q (.ok (node, some c))

/-- End of a handler whose loop already attached every child itself. -/
def pnodeOnly (r : PRes ParseNode) : PRes (ParseNode × Option ParseNode) :=
  match r with
  | .fatal => .fatal
  | .fuelOut => .fuelOut
  | .out p q (.error e) => .out p q (.error e)
  | .out p q (.ok n) => .out p q (.ok (n, none))

/-- End of the CALL_EXPRESSION / OPTIONAL_CHAIN handlers: any failure of
the trailing post chain is converted to success (`if (err) err =
ERR_SUCCESS;`, with `child` NULL after the failed sub-parse). -/
def pswallow (r : PRes ParseNode) (node : ParseNode) :
    PRes (ParseNode × Option ParseNode) :=
  match r with
  | .fatal => .fatal
  | .fuelOut => .fuelOut
  | .out p q (.error _) => .out p q (.ok (node, none))
  | .out p q (.ok c) => .out p q (.ok (node, some c))

/-- `g_assign_expr_ops` of src/src/parser.c, in table order. -/
def g_assign_expr_ops : List Nat :=
  [TOKEN_EQUALS, TOKEN_MUL_EQUALS, TOKEN_DIV_EQUALS, TOKEN_MOD_EQUALS,
   TOKEN_PLUS_EQUALS, TOKEN_MINUS_EQUALS, TOKEN_EXP_EQUALS,
   TOKEN_SHL_EQUALS, TOKEN_SHR_EQUALS, TOKEN_SAR_EQUALS,
   TOKEN_LOGICAL_OR_EQUALS, TOKEN_LOGICAL_AND_EQUALS,
   TOKEN_BITWISE_AND_EQUALS, TOKEN_BITWISE_XOR_EQUALS,
   TOKEN_BITWISE_OR_EQUALS, TOKEN_COALESCE_EQUALS]

/-- The reserved-literal terminal group of the `parser_parse` switch. -/
def is_reserved_literal_case (ty : Nat) : Bool :=
  ty == TOKEN_VAR || ty == TOKEN_SUPER || ty == TOKEN_IMPORT ||
  ty == TOKEN_THIS || ty == TOKEN_NEW || ty == TOKEN_NULL ||
  ty == TOKEN_TRUE || ty == TOKEN_FALSE

/-- The punctuation/literal terminal group of the `parser_parse` switch. -/
def is_punct_literal_case (ty : Nat) : Bool :=
  ty == TOKEN_NUMBER || ty == TOKEN_STRING || ty == TOKEN_LEFT_BRACE ||
  ty == TOKEN_RIGHT_BRACE || ty == TOKEN_LEFT_BRACKET ||
  ty == TOKEN_RIGHT_BRACKET || ty == TOKEN_SEMI_COLON ||
  ty == TOKEN_COMMA || ty == TOKEN_EQUALS

/-!
`parser_parse` of src/src/parser.c.  The recursion is fuelled: each
recursive call (including one loop iteration of the list handlers) burns
one unit.  `parser_parse_case` is the body of the C switch; `parserParse`
wraps it in the shared epilogue, which on success attaches a pending
`child` to the handler's node and on any error discards the node and
resets `*q_pos` to the value captured at entry.  Grammar symbols with no
`case` label reach the C `default:` handler, which prints and calls
`exit(0)`; they produce `fatal`.
-/

set_option maxHeartbeats 1600000

/-- The shared epilogue of `parser_parse` of src/src/parser.c: on success
a pending `child` is attached to the handler's node; on any error the node
(and its children) is discarded and `*q_pos` is reset to the cursor value
captured at entry to the symbol's attempt. -/
def pepilogue (inq : Nat) (r : PRes (ParseNode × Option ParseNode)) :
    PRes ParseNode :=
  match r with
  | .fatal => .fatal
  | .fuelOut => .fuelOut
  | .out p _ (.error e) => .out p inq (.error e)
  | .out p q (.ok (node, child)) =>
    .out p q (.ok (match child with
      | some c => parse_node_add_child node c
      | none => node))

/-- A pending invocation inside the `parser_parse` recursion: either a
`parser_parse` call proper, or one iteration state of one of its internal
repetition loops. -/
inductive PCall where
  | parse (p : Parser) (ty flags q : Nat)
  | stmtList (p : Parser) (flags q : Nat) (node : ParseNode)
  | declList (p : Parser) (flags q : Nat) (node : ParseNode)
  | post (p : Parser) (inTy inFlags flags q : Nat) (node : ParseNode)
  | optChain (p : Parser) (flags q : Nat) (node : ParseNode) (hasChain : Bool)
  | assignOps (p : Parser) (q : Nat) (ops : List Nat)

/-- One step of the `parser_parse` recursion of src/src/parser.c, with
`rec` standing for the recursive occurrences (each of which burns one unit
of fuel in `parse_run` below).  The `.parse` branch is the C switch
wrapped in the shared epilogue; the loop branches are the bodies of the
list/chain `while` loops. -/
def parse_body (rec : PCall → PRes ParseNode) : PCall → PRes ParseNode
  | .parse p ty flags q => pepilogue q (
    let node := parse_node_new ty
    if ty == TOKEN_NEW_LINE then
      -- find a line terminator before a token; peek without consuming
      match parser_get_token p q with
      | .fatal => .fatal
      | .gres p1 (.error e) => .out p1 q (.error e)
      | .gres p1 (.ok (tok, q1)) =>
        if token_has_new_line_pfx tok then .out p1 q (.ok (node, none))
        else .out p1 q1 (.error .noMatch)
    else if is_reserved_literal_case ty then
      match parser_get_token p q with
      | .fatal => .fatal
      | .gres p1 (.error e) => .out p1 q (.error e)
      | .gres p1 (.ok (tok, q1)) =>
        if tok.type != ty || !token_is_reserved_literal tok then
          .out p1 q1 (.error .noMatch)
        else .out p1 q1 (.ok (node, none))
    else if is_punct_literal_case ty then
      match parser_get_token p q with
      | .fatal => .fatal
      | .gres p1 (.error e) => .out p1 q (.error e)
      | .gres p1 (.ok (tok, q1)) =>
        if tok.type != ty then .out p1 q1 (.error .noMatch)
        else .out p1 q1 (.ok (node, none))
    else if ty == PRIVATE_IDENTIFIER then
      pok (rec (.parse p TOKEN_NUMBER_SIGN 0 q)) (fun p1 q1 _ =>
        pfin (rec (.parse p1 IDENTIFIER_NAME 0 q1)) node)
    else if ty == IDENTIFIER_NAME then
      match parser_get_token p q with
      | .fatal => .fatal
      | .gres p1 (.error e) => .out p1 q (.error e)
      | .gres p1 (.ok (tok, q1)) =>
        if !token_is_identifier_name tok then .out p1 q1 (.error .noMatch)
        else if token_is_reserved_word tok then
          .out p1 q1 (.ok (parse_node_new tok.type, none))
        else .out p1 q1 (.ok (parse_node_set_cooked node tok.cooked, none))
    else if ty == SCRIPT then
      pfin (rec (.parse p SCRIPT_BODY flags q)) node
    else if ty == SCRIPT_BODY then
      pfin (rec (.parse p STATEMENT_LIST (bits_clear (bits_clear (bits_clear flags GP_YIELD_POS) GP_AWAIT_POS)
          GP_RETURN_POS) q)) node
    else if ty == STATEMENT_LIST then
      pnodeOnly (rec (.stmtList p flags q node))
    else if ty == STATEMENT_LIST_ITEM then
      pfin (palt (rec (.parse p STATEMENT flags q)) (fun p1 q1 =>
        rec (.parse p1 DECLARATION (bits_clear flags GP_RETURN_POS) q1))) node
    else if ty == ARRAY_EXPRESSION then
      pok (rec (.parse p TOKEN_LEFT_BRACKET 0 q)) (fun p1 q1 _ =>
        pok (rec (.parse p1 EXPRESSION 0 q1)) (fun p2 q2 ch =>
          pok (rec (.parse p2 TOKEN_RIGHT_BRACKET 0 q2)) (fun p3 q3 _ =>
            .out p3 q3 (.ok (parse_node_add_child node ch, none)))))
    else if ty == PRIMARY_EXPRESSION then
      pfin
        (palt (rec (.parse p TOKEN_THIS 0 q)) (fun p1 q1 =>
         palt (rec (.parse p1 TOKEN_NULL 0 q1)) (fun p2 q2 =>
         palt (rec (.parse p2 TOKEN_TRUE 0 q2)) (fun p3 q3 =>
         palt (rec (.parse p3 TOKEN_FALSE 0 q3)) (fun p4 q4 =>
         palt (rec (.parse p4 TOKEN_NUMBER 0 q4)) (fun p5 q5 =>
         palt (rec (.parse p5 TOKEN_STRING 0 q5)) (fun p6 q6 =>
         palt (rec (.parse p6 ARRAY_LITERAL flags q6)) (fun p7 q7 =>
         palt (rec (.parse p7 OBJECT_LITERAL flags q7)) (fun p8 q8 =>
         palt (rec (.parse p8 FUNCTION_EXPRESSION 0 q8)) (fun p9 q9 =>
         palt (rec (.parse p9 CLASS_EXPRESSION flags q9)) (fun p10 q10 =>
         palt (rec (.parse p10 GENERATOR_EXPRESSION 0 q10)) (fun p11 q11 =>
         palt (rec (.parse p11 ASYNC_FUNCTION_EXPRESSION 0 q11)) (fun p12 q12 =>
         palt (rec (.parse p12 ASYNC_GENERATOR_EXPRESSION 0 q12)) (fun p13 q13 =>
         palt (rec (.parse p13 REGEXP_LITERAL 0 q13)) (fun p14 q14 =>
         palt (rec (.parse p14 PARENTHESIZED_EXPRESSION flags q14)) (fun p15 q15 =>
         palt (rec (.parse p15 IDENTIFIER_REFERENCE flags q15)) (fun p16 q16 =>
         rec (.parse p16 TEMPLATE_LITERAL (bits_clear flags GP_TAGGED_POS) q16))))))))))))))))))
        node
    else if ty == IMPORT_META then
      pok (rec (.parse p TOKEN_IMPORT 0 q)) (fun p1 q1 _ =>
        pok (rec (.parse p1 TOKEN_DOT 0 q1)) (fun p2 q2 _ =>
          pfin (rec (.parse p2 TOKEN_META 0 q2)) node))
    else if ty == NEW_TARGET then
      pok (rec (.parse p TOKEN_NEW 0 q)) (fun p1 q1 _ =>
        pok (rec (.parse p1 TOKEN_DOT 0 q1)) (fun p2 q2 _ =>
          pfin (rec (.parse p2 TOKEN_TARGET 0 q2)) node))
    else if ty == META_PROPERTY then
      pfin (palt (rec (.parse p NEW_TARGET 0 q)) (fun p1 q1 =>
        rec (.parse p1 IMPORT_META 0 q1))) node
    else if ty == SUPER_PROPERTY then
      pok (rec (.parse p TOKEN_SUPER 0 q)) (fun p1 q1 _ =>
        pfin (palt (rec (.parse p1 ARRAY_EXPRESSION (bits_set flags GP_IN_POS) q1))
          (fun p2 q2 => rec (.parse p2 DOT_IDENTIFIER_NAME 0 q2))) node)
    else if ty == MEMBER_EXPRESSION then
      match rec (.parse p SUPER_PROPERTY flags q) with
      | .fatal => .fatal
      | .fuelOut => .fuelOut
      | .out p1 q1 (.ok _) =>
        pfin (rec (.parse p1 MEMBER_EXPRESSION_POST flags q1)) node
      | .out p1 q1 (.error .noMatch) =>
        match rec (.parse p1 META_PROPERTY 0 q1) with
        | .fatal => .fatal
        | .fuelOut => .fuelOut
        | .out p2 q2 (.ok _) =>
          pfin (rec (.parse p2 MEMBER_EXPRESSION_POST flags q2)) node
        | .out p2 q2 (.error .noMatch) =>
          match rec (.parse p2 TOKEN_NEW flags q2) with
          | .fatal => .fatal
          | .fuelOut => .fuelOut
          | .out p3 q3 (.ok _) =>
            pok (rec (.parse p3 MEMBER_EXPRESSION flags q3)) (fun p4 q4 _ =>
              pok (rec (.parse p4 ARGUMENTS flags q4)) (fun p5 q5 _ =>
                pfin (rec (.parse p5 MEMBER_EXPRESSION_POST flags q5)) node))
          | .out p3 q3 (.error .noMatch) =>
            pok (rec (.parse p3 PRIMARY_EXPRESSION flags q3)) (fun p4 q4 _ =>
              pfin (rec (.parse p4 MEMBER_EXPRESSION_POST flags q4)) node)
          | .out p3 q3 (.error e) => .out p3 q3 (.error e)
        | .out p2 q2 (.error e) => .out p2 q2 (.error e)
      | .out p1 q1 (.error e) => .out p1 q1 (.error e)
    else if ty == NEW_EXPRESSION then
      match rec (.parse p MEMBER_EXPRESSION flags q) with
      | .fatal => .fatal
      | .fuelOut => .fuelOut
      | .out p1 q1 (.ok ch) =>
        -- the C adds `child` and then leaves the pointer set, so the
        -- success epilogue attaches the same child a second time
        -- (list-corrupting in C; rendered as a duplicate entry here)
        .out p1 q1 (.ok (parse_node_add_child node ch, some ch))
      | .out p1 q1 (.error .noMatch) =>
        pok (rec (.parse p1 TOKEN_NEW flags q1)) (fun p2 q2 ch =>
          pfin (rec (.parse p2 NEW_EXPRESSION flags q2))
            (parse_node_add_child node ch))
      | .out p1 q1 (.error e) => .out p1 q1 (.error e)
    else if ty == CALL_MEMBER_EXPRESSION then
      pok (rec (.parse p MEMBER_EXPRESSION flags q)) (fun p1 q1 ch =>
        pfin (rec (.parse p1 ARGUMENTS flags q1))
          (parse_node_add_child node ch))
    else if ty == IMPORT_CALL then
      -- the C deletes the `)` node but leaves the `child` pointer set, so
      -- the success epilogue attaches it; the model keeps the node's value
      pok (rec (.parse p TOKEN_IMPORT 0 q)) (fun p1 q1 _ =>
        pok (rec (.parse p1 TOKEN_LEFT_PAREN 0 q1)) (fun p2 q2 _ =>
          pok (rec (.parse p2 ASSIGNMENT_EXPRESSION (bits_set flags GP_IN_POS) q2))
            (fun p3 q3 _ =>
              pok (rec (.parse p3 TOKEN_RIGHT_PAREN 0 q3)) (fun p4 q4 rp =>
                .out p4 q4 (.ok (node, some rp))))))
    else if ty == SUPER_CALL then
      pok (rec (.parse p TOKEN_SUPER 0 q)) (fun p1 q1 _ =>
        pfin (rec (.parse p1 ARGUMENTS flags q1)) node)
    else if ty == CALL_EXPRESSION then
      pok (palt (rec (.parse p SUPER_CALL flags q)) (fun p1 q1 =>
            palt (rec (.parse p1 IMPORT_CALL flags q1)) (fun p2 q2 =>
              rec (.parse p2 CALL_MEMBER_EXPRESSION flags q2))))
        (fun p3 q3 ch =>
          pswallow (rec (.parse p3 CALL_EXPRESSION_POST flags q3))
            (parse_node_add_child node ch))
    else if ty == OPTIONAL_CHAIN_POST || ty == CALL_EXPRESSION_POST ||
        ty == MEMBER_EXPRESSION_POST then
      pnodeOnly (rec (.post p ty flags flags q node))
    else if ty == OPTIONAL_CHAIN then
      pok (rec (.parse p TOKEN_QUESTION_DOT 0 q)) (fun p1 q1 _ =>
        pok (palt (rec (.parse p1 ARGUMENTS flags q1)) (fun p2 q2 =>
              palt (rec (.parse p2 ARRAY_EXPRESSION 0 q2)) (fun p3 q3 =>
                palt (rec (.parse p3 IDENTIFIER_NAME 0 q3)) (fun p4 q4 =>
                  palt (rec (.parse p4 TEMPLATE_LITERAL (bits_set flags GP_TAGGED_POS) q4)) (fun p5 q5 =>
                    rec (.parse p5 PRIVATE_IDENTIFIER 0 q5))))))
          (fun p6 q6 ch =>
            pswallow (rec (.parse p6 OPTIONAL_CHAIN_POST flags q6))
              (parse_node_add_child node ch)))
    else if ty == OPTIONAL_EXPRESSION then
      pok (palt (rec (.parse p CALL_EXPRESSION flags q)) (fun p1 q1 =>
            rec (.parse p1 MEMBER_EXPRESSION flags q1)))
        (fun p2 q2 ch =>
          pnodeOnly (rec (.optChain p2 flags q2 (parse_node_add_child node ch) false)))
    else if ty == LHS_EXPRESSION then
      pfin (palt (rec (.parse p OPTIONAL_EXPRESSION flags q)) (fun p1 q1 =>
        palt (rec (.parse p1 CALL_EXPRESSION flags q1)) (fun p2 q2 =>
          rec (.parse p2 NEW_EXPRESSION flags q2)))) node
    else if ty == ASSIGNMENT_EXPRESSION then
      -- on failure of the left-hand-side route the handler reparses from
      -- the entry cursor through the arrow-function alternatives
      match rec (.parse p LHS_EXPRESSION (bits_clear flags GP_IN_POS) q) with
      | .fatal => .fatal
      | .fuelOut => .fuelOut
      | .out p1 q1 (.ok lhs) =>
        let node1 := parse_node_add_child node lhs
        match rec (.assignOps p1 q1 g_assign_expr_ops) with
        | .fatal => .fatal
        | .fuelOut => .fuelOut
        | .out p2 _ (.error _) =>
          pfin (palt (rec (.parse p2 ASYNC_ARROW_FUNCTION flags q)) (fun pa qa =>
            palt (if bits_get flags GP_YIELD_POS then
                    rec (.parse pa YIELD_EXPRESSION (bits_clear flags GP_YIELD_POS) qa)
                  else .out pa qa (.error Err.noMatch)) (fun pb qb =>
              palt (rec (.parse pb ARROW_FUNCTION flags qb)) (fun pc qc =>
                rec (.parse pc CONDITIONAL_EXPRESSION flags qc))))) node1
        | .out p2 q2 (.ok opNode) =>
          pfin (rec (.parse p2 ASSIGNMENT_EXPRESSION flags q2))
            (parse_node_add_child node1 opNode)
      | .out p1 q1 (.error _) =>
        pfin (palt (rec (.parse p1 ASYNC_ARROW_FUNCTION flags q1)) (fun pa qa =>
          palt (if bits_get flags GP_YIELD_POS then
                  rec (.parse pa YIELD_EXPRESSION (bits_clear flags GP_YIELD_POS) qa)
                else .out pa qa (.error Err.noMatch)) (fun pb qb =>
            palt (rec (.parse pb ARROW_FUNCTION flags qb)) (fun pc qc =>
              rec (.parse pc CONDITIONAL_EXPRESSION flags qc))))) node
    else if ty == INITIALIZER then
      pok (rec (.parse p TOKEN_EQUALS 0 q)) (fun p1 q1 _ =>
        pfin (rec (.parse p1 ASSIGNMENT_EXPRESSION flags q1)) node)
    else if ty == BINDING_IDENTIFIER then
      match rec (.parse p IDENTIFIER_NAME 0 q) with
      | .fatal => .fatal
      | .fuelOut => .fuelOut
      | .out p1 q1 (.error e) => .out p1 q1 (.error e)
      | .out p1 q1 (.ok ch) =>
        if parse_node_is_reserved_word ch then .out p1 q1 (.error .noMatch)
        else .out p1 q1 (.ok (node, some ch))
    else if ty == VARIABLE_DECLARATION then
      -- the initializer is optional (its failure is success) only for an
      -- identifier binding
      match rec (.parse p BINDING_IDENTIFIER (bits_clear flags GP_IN_POS) q) with
      | .fatal => .fatal
      | .fuelOut => .fuelOut
      | .out p1 q1 (.ok ch) =>
        let node1 := parse_node_add_child node ch
        match rec (.parse p1 INITIALIZER flags q1) with
        | .fatal => .fatal
        | .fuelOut => .fuelOut
        | .out p2 q2 (.error _) => .out p2 q2 (.ok (node1, none))
        | .out p2 q2 (.ok ini) => .out p2 q2 (.ok (node1, some ini))
      | .out p1 q1 (.error .noMatch) =>
        match rec (.parse p1 BINDING_PATTERN (bits_clear flags GP_IN_POS) q1) with
        | .fatal => .fatal
        | .fuelOut => .fuelOut
        | .out p2 q2 (.ok ch) =>
          let node1 := parse_node_add_child node ch
          match rec (.parse p2 INITIALIZER flags q2) with
          | .fatal => .fatal
          | .fuelOut => .fuelOut
          | .out p3 q3 (.error e) => .out p3 q3 (.error e)
          | .out p3 q3 (.ok ini) => .out p3 q3 (.ok (node1, some ini))
        | .out p2 q2 (.error e) => .out p2 q2 (.error e)
      | .out p1 q1 (.error e) => .out p1 q1 (.error e)
    else if ty == VARIABLE_DECLARATION_LIST then
      pnodeOnly (rec (.declList p flags q node))
    else if ty == VARIABLE_STATEMENT then
      pok (rec (.parse p TOKEN_VAR 0 q)) (fun p1 q1 _ =>
        pok (rec (.parse p1 VARIABLE_DECLARATION_LIST (bits_set flags GP_IN_POS) q1))
          (fun p2 q2 dl =>
            let node1 := parse_node_add_child node dl
            match palt (rec (.parse p2 TOKEN_NEW_LINE 0 q2)) (fun p3 q3 =>
                    rec (.parse p3 TOKEN_SEMI_COLON 0 q3)) with
            | .fatal => .fatal
            | .fuelOut => .fuelOut
            | .out p4 q4 (.ok _) => .out p4 q4 (.ok (node1, none))
            | .out p4 q4 (.error .endOfFile) => .out p4 q4 (.ok (node1, none))
            | .out p4 q4 (.error e) => .out p4 q4 (.error e)))
    else if ty == BLOCK then
      pok (rec (.parse p TOKEN_LEFT_BRACE 0 q)) (fun p1 q1 _ =>
        match rec (.parse p1 TOKEN_RIGHT_BRACE 0 q1) with
        | .fatal => .fatal
        | .fuelOut => .fuelOut
        | .out p2 q2 (.ok _) => .out p2 q2 (.ok (node, none))
        | .out p2 q2 (.error _) =>
          pok (rec (.parse p2 STATEMENT_LIST flags q2)) (fun p3 q3 sl =>
            pok (rec (.parse p3 TOKEN_RIGHT_BRACE 0 q3)) (fun p4 q4 _ =>
              .out p4 q4 (.ok (parse_node_add_child node sl, none)))))
    else if ty == BLOCK_STATEMENT then
      pfin (rec (.parse p BLOCK flags q)) node
    else if ty == STATEMENT then
      pfin
        (palt (rec (.parse p BLOCK_STATEMENT flags q)) (fun p1 q1 =>
         palt (rec (.parse p1 VARIABLE_STATEMENT (bits_clear flags GP_RETURN_POS) q1)) (fun p2 q2 =>
         palt (rec (.parse p2 EMPTY_STATEMENT 0 q2)) (fun p3 q3 =>
         palt (rec (.parse p3 IF_STATEMENT (bits_clear flags GP_RETURN_POS) q3)) (fun p4 q4 =>
         palt (rec (.parse p4 BREAKABLE_STATEMENT (bits_clear flags GP_RETURN_POS) q4)) (fun p5 q5 =>
         palt (rec (.parse p5 CONTINUE_STATEMENT (bits_clear flags GP_RETURN_POS) q5)) (fun p6 q6 =>
         palt (rec (.parse p6 BREAK_STATEMENT (bits_clear flags GP_RETURN_POS) q6)) (fun p7 q7 =>
         palt (if bits_get flags GP_RETURN_POS then
                 rec (.parse p7 RETURN_STATEMENT (bits_clear flags GP_RETURN_POS) q7)
               else .out p7 q7 (.error Err.noMatch)) (fun p8 q8 =>
         palt (rec (.parse p8 WITH_STATEMENT (bits_clear flags GP_RETURN_POS) q8)) (fun p9 q9 =>
         palt (rec (.parse p9 LABELLED_STATEMENT (bits_clear flags GP_RETURN_POS) q9)) (fun p10 q10 =>
         palt (rec (.parse p10 THROW_STATEMENT (bits_clear flags GP_RETURN_POS) q10)) (fun p11 q11 =>
         palt (rec (.parse p11 TRY_STATEMENT (bits_clear flags GP_RETURN_POS) q11)) (fun p12 q12 =>
         palt (rec (.parse p12 DEBUGGER_STATEMENT 0 q12)) (fun p13 q13 =>
         rec (.parse p13 EXPRESSION_STATEMENT (bits_clear flags GP_RETURN_POS) q13)))))))))))))))
        node
    else .fatal)
  | .stmtList p flags q node =>
    match rec (.parse p STATEMENT_LIST_ITEM flags q) with
    | .fatal => .fatal
    | .fuelOut => .fuelOut
    | .out p1 q1 (.error e) => .out p1 q1 (.error e)
    | .out p1 q1 (.ok ch) =>
      rec (.stmtList p1 flags q1 (parse_node_add_child node ch))
  | .declList p flags q node =>
    match rec (.parse p VARIABLE_DECLARATION flags q) with
    | .fatal => .fatal
    | .fuelOut => .fuelOut
    | .out p1 q1 (.error e) =>
      if parse_node_has_children node then .out p1 q1 (.ok node)
      else .out p1 q1 (.error e)
    | .out p1 q1 (.ok ch) =>
      let node1 := parse_node_add_child node ch
      match rec (.parse p1 TOKEN_COMMA 0 q1) with
      | .fatal => .fatal
      | .fuelOut => .fuelOut
      | .out p2 q2 (.error _) => .out p2 q2 (.ok node1)
      | .out p2 q2 (.ok _) => rec (.declList p2 flags q2 node1)
  | .post p inTy inFlags flags q node =>
    let r1 := if inTy != MEMBER_EXPRESSION_POST then
        rec (.parse p ARGUMENTS inFlags q)
      else .out p q (.error Err.noMatch)
    let flags1 := if inTy != MEMBER_EXPRESSION_POST then inFlags else flags
    match r1 with
    | .fatal => .fatal
    | .fuelOut => .fuelOut
    | .out p1 q1 (.ok ch) =>
      rec (.post p1 inTy inFlags flags1 q1 (parse_node_add_child node ch))
    | .out p1 q1 (.error .noMatch) =>
      let flags2 := bits_set flags1 GP_IN_POS
      match rec (.parse p1 ARRAY_EXPRESSION flags2 q1) with
      | .fatal => .fatal
      | .fuelOut => .fuelOut
      | .out p2 q2 (.ok ch) =>
        rec (.post p2 inTy inFlags flags2 q2 (parse_node_add_child node ch))
      | .out p2 q2 (.error .noMatch) =>
        let flags3 := bits_set inFlags GP_TAGGED_POS
        match rec (.parse p2 TEMPLATE_LITERAL flags3 q2) with
        | .fatal => .fatal
        | .fuelOut => .fuelOut
        | .out p3 q3 (.ok ch) =>
          rec (.post p3 inTy inFlags flags3 q3 (parse_node_add_child node ch))
        | .out p3 q3 (.error .noMatch) =>
          match rec (.parse p3 DOT_IDENTIFIER_NAME 0 q3) with
          | .fatal => .fatal
          | .fuelOut => .fuelOut
          | .out p4 q4 (.ok ch) =>
            rec (.post p4 inTy inFlags flags3 q4 (parse_node_add_child node ch))
          | .out p4 q4 (.error .noMatch) =>
            match rec (.parse p4 DOT_PRIVATE_IDENTIFIER 0 q4) with
            | .fatal => .fatal
            | .fuelOut => .fuelOut
            | .out p5 q5 (.ok ch) =>
              rec (.post p5 inTy inFlags flags3 q5 (parse_node_add_child node ch))
            | .out p5 q5 (.error e) => .out p5 q5 (.error e)
          | .out p4 q4 (.error e) => .out p4 q4 (.error e)
        | .out p3 q3 (.error e) => .out p3 q3 (.error e)
      | .out p2 q2 (.error e) => .out p2 q2 (.error e)
    | .out p1 q1 (.error e) => .out p1 q1 (.error e)
  | .optChain p flags q node hasChain =>
    match rec (.parse p OPTIONAL_CHAIN flags q) with
    | .fatal => .fatal
    | .fuelOut => .fuelOut
    | .out p1 q1 (.ok ch) =>
      -- the C never writes `has_opt_chain = true`, so the flag keeps its
      -- caller-supplied value and a later loop error is propagated
      rec (.optChain p1 flags q1 (parse_node_add_child node ch) hasChain)
    | .out p1 q1 (.error e) =>
      if hasChain then .out p1 q1 (.ok node) else .out p1 q1 (.error e)
  | .assignOps p q [] => .out p q (.error .noMatch)
  | .assignOps p q (op :: rest) =>
    match rec (.parse p op 0 q) with
    | .fatal => .fatal
    | .fuelOut => .fuelOut
    | .out p1 q1 (.error .noMatch) => rec (.assignOps p1 q1 rest)
    | r => r

/-- The fuelled `parser_parse` recursion. -/
def parse_run : Nat → PCall → PRes ParseNode
  | 0, _ => .fuelOut
  | f + 1, c => parse_body (parse_run f) c

/-- `parser_parse` of src/src/parser.c (see `parse_body`). -/
def parserParse (fuel : Nat) (p : Parser) (ty flags q : Nat) :
    PRes ParseNode :=
  parse_run fuel (.parse p ty flags q)

/-- The STATEMENT_LIST repetition loop of `parser_parse`. -/
def stmtListLoop (fuel : Nat) (p : Parser) (flags q : Nat)
    (node : ParseNode) : PRes ParseNode :=
  parse_run fuel (.stmtList p flags q node)

/-- The VARIABLE_DECLARATION_LIST repetition loop of `parser_parse`. -/
def declListLoop (fuel : Nat) (p : Parser) (flags q : Nat)
    (node : ParseNode) : PRes ParseNode :=
  parse_run fuel (.declList p flags q node)

/-- The member/call/optional post-chain repetition loop of
`parser_parse`. -/
def postLoop (fuel : Nat) (p : Parser) (inTy inFlags flags q : Nat)
    (node : ParseNode) : PRes ParseNode :=
  parse_run fuel (.post p inTy inFlags flags q node)

/-- The OPTIONAL_CHAIN repetition loop of `parser_parse`. -/
def optChainLoop (fuel : Nat) (p : Parser) (flags q : Nat)
    (node : ParseNode) (hasChain : Bool) : PRes ParseNode :=
  parse_run fuel (.optChain p flags q node hasChain)

/-- The assignment-operator trial loop of `parser_parse` over
`g_assign_expr_ops`. -/
def assignOpsLoop (fuel : Nat) (p : Parser) (q : Nat) (ops : List Nat) :
    PRes ParseNode :=
  parse_run fuel (.assignOps p q ops)

/-- Result of `parser_parse_script`: a parser state, the surviving root
(NULL on every failure of the start symbol, including the EndOfFile result
that is converted to success), and the returned status. -/
inductive ScriptRes where
  | fatal
  | fuelOut
  | sres (p : Parser) (root : Option ParseNode) (r : Except Err Unit)
  deriving Repr

/-- `parser_parse_script` of src/src/parser.c. -/
def parser_parse_script (fuel : Nat) (p : Parser) : ScriptRes :=
  match parserParse fuel p SCRIPT 0 0 with
  | .fatal => .fatal
  | .fuelOut => .fuelOut
  | .out p1 _ (.ok node) => .sres p1 (some node) (.ok ())
  | .out p1 _ (.error .endOfFile) => .sres p1 none (.ok ())
  | .out p1 _ (.error e) => .sres p1 none (.error e)

/-! Observers used to state concrete runs. -/

/-- Token of a successful scan. -/
def SRes.tokOf : SRes → Option Token
  | .res _ (.ok t) => some t
  | _ => none

/-- Error code of a failed scan. -/
def SRes.errOf : SRes → Option Err
  | .res _ (.error e) => some e
  | _ => none

/-- Error code of a failed parse. -/
def PRes.errOf {α : Type} : PRes α → Option Err
  | .out _ _ (.error e) => some e
  | _ => none

/-- Value of a successful parse. -/
def PRes.okOf {α : Type} : PRes α → Option α
  | .out _ _ (.ok a) => some a
  | _ => none

/-- Out-cursor of a completed parse. -/
def PRes.qOf {α : Type} : PRes α → Option Nat
  | .out _ q _ => some q
  | _ => none

/-- Root produced by a whole-script parse. -/
def ScriptRes.root_of : ScriptRes → Option ParseNode
  | .sres _ r _ => r
  | _ => none

/-- Whether a whole-script parse returned `ERR_SUCCESS`. -/
def ScriptRes.ok_status : ScriptRes → Bool
  | .sres _ _ (.ok _) => true
  | _ => false

/-- Tokens produced by repeated `scanner_get_next_token` calls (stopping
at the first failure), used to state concrete scans. -/
def scan_list (s : Scanner) : Nat → List Token
  | 0 => []
  | n + 1 =>
    match scanner_get_next_token s with
    | .res s1 (.ok t) => t :: scan_list s1 n
    | _ => []

/-- Scanner state after `n` successful `scanner_get_next_token` calls. -/
def scan_state (s : Scanner) : Nat → Scanner
  | 0 => s
  | n + 1 =>
    match scanner_get_next_token s with
    | .res s1 (.ok _) => scan_state s1 n
    | _ => s

/-- C1: parsing `var x;` as a script with a fresh parser does not succeed
with a one-declaration variable-statement tree: the scanner has no handler
for the `;` code unit (its dispatch covers only quotes, `=`, and
identifier-start units) and reaches the C "unsup" path, which calls
`exit(0)` — the whole run is fatal and no parse tree exists. -/
theorem c1_var_x_script_terminates_process :
    parser_parse_script 32 (parser_new (str2cus "var x;")) = ScriptRes.fatal := by
  rfl

/-- C10: on empty input `parser_parse_script` reports success while the
root stays NULL: the start symbol's parse returns EndOfFile, which the
entry point converts to `ERR_SUCCESS` without a root having been
produced. -/
theorem c10_empty_input_success_without_root :
    (parser_parse_script 32 (parser_new [])).ok_status = true ∧
    ((parser_parse_script 32 (parser_new [])).root_of).isNone = true ∧
    (parserParse 32 (parser_new []) SCRIPT 0 0).errOf = some Err.endOfFile :=
  ⟨rfl, rfl, rfl⟩

/-- C5 counterexample: scanning the unterminated double-quoted string
`"abc` fails, but with EndOfFile (the string loop surfaces the peek
error when input runs out), not with InvalidToken as claimed —
InvalidToken is produced only for a raw CR or LF inside the literal. -/
theorem c5_unterminated_string_error_is_not_invalid_token :
    (scanner_get_next_token (scanner_new (str2cus "\"abc"))).errOf =
      some Err.endOfFile ∧
    some Err.endOfFile ≠ some Err.invalidToken :=
  ⟨rfl, by decide⟩

/-- C5 amended: scanning `"abc` — a double-quoted string whose closing
quote never appears before the end of input — fails with the EndOfFile
error (and yields no token); a raw line terminator inside a string is
what fails with InvalidToken. -/
theorem c5_unterminated_string_fails_end_of_file :
    (scanner_get_next_token (scanner_new (str2cus "\"abc"))).errOf =
      some Err.endOfFile ∧
    (scanner_get_next_token (scanner_new (str2cus "\"abc"))).tokOf = none ∧
    (scanner_get_next_token (scanner_new (str2cus "\"ab\ncd\""))).errOf =
      some Err.invalidToken :=
  ⟨rfl, rfl, rfl⟩

/-! Shared lemmas about the parse epilogue and the alternative chains. -/

/-- On any error the epilogue restores the cursor captured at entry. -/
theorem pepilogue_error_q {inq : Nat} {r : PRes (ParseNode × Option ParseNode)}
    {p1 : Parser} {q1 : Nat} {e : Err}
    (h : pepilogue inq r = .out p1 q1 (.error e)) : q1 = inq := by
  cases r with
  | fatal => simp [pepilogue] at h
  | fuelOut => simp [pepilogue] at h
  | out p q r' =>
    cases r' with
    | error e' =>
      simp only [pepilogue] at h
      cases h
      rfl
    | ok a =>
      obtain ⟨node, child⟩ := a
      cases child <;> simp [pepilogue] at h

/-- Every error result of `parser_parse` leaves the cursor where the
symbol's attempt began (the C error epilogue writes `*q_pos = in_pos`). -/
theorem parserParse_error_q {fuel : Nat} {p : Parser} {ty flags q : Nat}
    {p1 : Parser} {q1 : Nat} {e : Err}
    (h : parserParse fuel p ty flags q = .out p1 q1 (.error e)) : q1 = q := by
  cases fuel with
  | zero => simp [parserParse, parse_run] at h
  | succ f =>
    simp only [parserParse, parse_run, parse_body] at h
    exact pepilogue_error_q h

/-- A hard failure passes through the ordered-choice step unchanged. -/
theorem palt_hard {α : Type} {p1 : Parser} {q1 : Nat} {e : Err}
    (k : Parser → Nat → PRes α) (he : e ≠ Err.noMatch) :
    palt (.out p1 q1 (.error e)) k = .out p1 q1 (.error e) := by
  cases e <;> simp_all [palt]

/-- A DECLARATION parse reaches the C `default:` handler: it terminates
the process (or exhausts the model's fuel), and in particular never
produces NoMatch. -/
theorem declaration_is_fatal (f : Nat) (p : Parser) (fl q : Nat) :
    parserParse f p DECLARATION fl q = .fatal ∨
    parserParse f p DECLARATION fl q = .fuelOut := by
  cases f with
  | zero => exact Or.inr rfl
  | succ f => exact Or.inl rfl

/-- C4: for every grammar symbol, parameter set and cursor position, a
NoMatch result of `parser_parse` leaves the token cursor exactly where it
was when that symbol's attempt began — the shared error epilogue resets
`*q_pos` to the entry value on every error, NoMatch included. -/
theorem c4_nomatch_restores_cursor (fuel : Nat) (p : Parser)
    (ty flags q : Nat) (p1 : Parser) (q1 : Nat)
    (h : parserParse fuel p ty flags q = .out p1 q1 (.error .noMatch)) :
    q1 = q :=
  parserParse_error_q h

/-- C4 witness: parsing the terminal `var` against the source `x` fails
NoMatch with the cursor back at its entry value 0. -/
theorem c4_nomatch_restores_cursor_witness : (0 : Nat) = 0 := by
  have h : ∃ p1, parserParse 8 (parser_new (str2cus "x")) TOKEN_VAR 0 0 =
      PRes.out p1 0 (.error .noMatch) := ⟨_, rfl⟩
  obtain ⟨p1, hp⟩ := h
  exact c4_nomatch_restores_cursor 8 (parser_new (str2cus "x")) TOKEN_VAR 0 0
    p1 0 hp

/-- C3 counterexample: on the source `x "` followed by a raw newline, the
VARIABLE_DECLARATION parse of `parser_parse` succeeds with a single child,
even though its INITIALIZER alternative (run at the cached state after the
binding `x`, cursor 1) fails with the hard error InvalidToken: the
`if (err && is_ident) err = ERR_SUCCESS;` epilogue of the handler converts
the hard failure into success instead of propagating it. -/
theorem c3_hard_error_swallowed_counterexample :
    (parserParse 32 (parser_new (str2cus "x \"\n")) VARIABLE_DECLARATION 0 0).errOf
      = none ∧
    ((parserParse 32 (parser_new (str2cus "x \"\n")) VARIABLE_DECLARATION 0 0).okOf.map
      (fun n => n.nodes.length)) = some 1 ∧
    (∃ p1 r, parser_get_token (parser_new (str2cus "x \"\n")) 0 = .gres p1 r ∧
      (parserParse 32 p1 INITIALIZER 0 1).errOf = some Err.invalidToken) ∧
    Err.invalidToken ≠ Err.noMatch :=
  ⟨rfl, rfl, ⟨_, _, rfl, rfl⟩, by decide⟩

/-- C3 amended: in the ordered-choice chains such as
STATEMENT_LIST_ITEM's, a hard failure (EndOfFile, InvalidToken,
OutOfMemory) of an alternative is returned without attempting the
remaining alternatives of that chain — only NoMatch advances the chain.
But this is not a law of every handler: BLOCK proceeds from a failed `}`
attempt to its STATEMENT_LIST route on any error, hard or not;
ASSIGNMENT_EXPRESSION falls into its arrow-function reparse alternatives
after a failed left-hand-side route regardless of the error kind; and a
VARIABLE_DECLARATION whose identifier binding has parsed converts any
failure of its optional initializer, hard errors included, into
success.  (The BLOCK and ASSIGNMENT_EXPRESSION conclusions below do not
mention the error `e` at all: the handler continues identically for
every error kind.) -/
theorem c3_hard_error_chain_stops :
    (∀ f p flags q p1 q1 e, e ≠ Err.noMatch →
      parserParse f p STATEMENT flags q = .out p1 q1 (.error e) →
      parserParse (f + 1) p STATEMENT_LIST_ITEM flags q =
        .out p1 q (.error e)) ∧
    (∀ f p flags q p1 q1 ch p2 q2 e,
      parserParse f p BINDING_IDENTIFIER (bits_clear flags GP_IN_POS) q =
        .out p1 q1 (.ok ch) →
      parserParse f p1 INITIALIZER flags q1 = .out p2 q2 (.error e) →
      parserParse (f + 1) p VARIABLE_DECLARATION flags q =
        .out p2 q2 (.ok (ParseNode.mk VARIABLE_DECLARATION [] [ch]))) ∧
    (∀ f p flags q p1 q1 lb p2 q2 e,
      parserParse f p TOKEN_LEFT_BRACE 0 q = .out p1 q1 (.ok lb) →
      parserParse f p1 TOKEN_RIGHT_BRACE 0 q1 = .out p2 q2 (.error e) →
      parserParse (f + 1) p BLOCK flags q =
        pepilogue q (pok (parserParse f p2 STATEMENT_LIST flags q2)
          (fun p3 q3 sl => pok (parserParse f p3 TOKEN_RIGHT_BRACE 0 q3)
            (fun p4 q4 _ =>
              .out p4 q4 (.ok (parse_node_add_child (parse_node_new BLOCK) sl,
                none)))))) ∧
    (∀ f p flags q p1 q1 e,
      parserParse f p LHS_EXPRESSION (bits_clear flags GP_IN_POS) q =
        .out p1 q1 (.error e) →
      parserParse (f + 1) p ASSIGNMENT_EXPRESSION flags q =
        pepilogue q (pfin
          (palt (parserParse f p1 ASYNC_ARROW_FUNCTION flags q1) (fun pa qa =>
            palt (if bits_get flags GP_YIELD_POS then
                    parserParse f pa YIELD_EXPRESSION
                      (bits_clear flags GP_YIELD_POS) qa
                  else .out pa qa (.error Err.noMatch)) (fun pb qb =>
              palt (parserParse f pb ARROW_FUNCTION flags qb) (fun pc qc =>
                parserParse f pc CONDITIONAL_EXPRESSION flags qc))))
          (parse_node_new ASSIGNMENT_EXPRESSION))) := by
  refine ⟨?_, ?_, ?_, ?_⟩
  · intro f p flags q p1 q1 e he h
    have hred : parserParse (f + 1) p STATEMENT_LIST_ITEM flags q =
        pepilogue q (pfin (palt (parserParse f p STATEMENT flags q)
          (fun pa qa =>
            parserParse f pa DECLARATION (bits_clear flags GP_RETURN_POS) qa))
          (parse_node_new STATEMENT_LIST_ITEM)) := rfl
    rw [hred, h, palt_hard _ he]
    rfl
  · intro f p flags q p1 q1 ch p2 q2 e h1 h2
    have hred : parserParse (f + 1) p VARIABLE_DECLARATION flags q =
        pepilogue q (
          match parserParse f p BINDING_IDENTIFIER (bits_clear flags GP_IN_POS) q with
          | .fatal => .fatal
          | .fuelOut => .fuelOut
          | .out p1 q1 (.ok ch) =>
            let node1 := parse_node_add_child
              (parse_node_new VARIABLE_DECLARATION) ch
            match parserParse f p1 INITIALIZER flags q1 with
            | .fatal => .fatal
            | .fuelOut => .fuelOut
            | .out p2 q2 (.error _) => .out p2 q2 (.ok (node1, none))
            | .out p2 q2 (.ok ini) => .out p2 q2 (.ok (node1, some ini))
          | .out p1 q1 (.error .noMatch) =>
            match parserParse f p1 BINDING_PATTERN (bits_clear flags GP_IN_POS) q1 with
            | .fatal => .fatal
            | .fuelOut => .fuelOut
            | .out p2 q2 (.ok ch) =>
              let node1 := parse_node_add_child
                (parse_node_new VARIABLE_DECLARATION) ch
              match parserParse f p2 INITIALIZER flags q2 with
              | .fatal => .fatal
              | .fuelOut => .fuelOut
              | .out p3 q3 (.error e) => .out p3 q3 (.error e)
              | .out p3 q3 (.ok ini) => .out p3 q3 (.ok (node1, some ini))
            | .out p2 q2 (.error e) => .out p2 q2 (.error e)
          | .out p1 q1 (.error e) => .out p1 q1 (.error e)) := rfl
    rw [hred, h1]
    simp only [h2]
    rfl
  · intro f p flags q p1 q1 lb p2 q2 e h1 h2
    have hred : parserParse (f + 1) p BLOCK flags q =
        pepilogue q (pok (parserParse f p TOKEN_LEFT_BRACE 0 q)
          (fun p1 q1 _ =>
            match parserParse f p1 TOKEN_RIGHT_BRACE 0 q1 with
            | .fatal => .fatal
            | .fuelOut => .fuelOut
            | .out p2 q2 (.ok _) =>
              .out p2 q2 (.ok (parse_node_new BLOCK, none))
            | .out p2 q2 (.error _) =>
              pok (parserParse f p2 STATEMENT_LIST flags q2) (fun p3 q3 sl =>
                pok (parserParse f p3 TOKEN_RIGHT_BRACE 0 q3) (fun p4 q4 _ =>
                  .out p4 q4 (.ok
                    (parse_node_add_child (parse_node_new BLOCK) sl,
                      none)))))) := rfl
    rw [hred, h1]
    simp only [pok]
    rw [h2]
  · intro f p flags q p1 q1 e h1
    have hred : parserParse (f + 1) p ASSIGNMENT_EXPRESSION flags q =
        pepilogue q (
          match parserParse f p LHS_EXPRESSION (bits_clear flags GP_IN_POS) q with
          | .fatal => .fatal
          | .fuelOut => .fuelOut
          | .out p1 q1 (.ok lhs) =>
            let node1 := parse_node_add_child
              (parse_node_new ASSIGNMENT_EXPRESSION) lhs
            match assignOpsLoop f p1 q1 g_assign_expr_ops with
            | .fatal => .fatal
            | .fuelOut => .fuelOut
            | .out p2 _ (.error _) =>
              pfin (palt (parserParse f p2 ASYNC_ARROW_FUNCTION flags q)
                (fun pa qa =>
                  palt (if bits_get flags GP_YIELD_POS then
                          parserParse f pa YIELD_EXPRESSION
                            (bits_clear flags GP_YIELD_POS) qa
                        else .out pa qa (.error Err.noMatch)) (fun pb qb =>
                    palt (parserParse f pb ARROW_FUNCTION flags qb)
                      (fun pc qc =>
                        parserParse f pc CONDITIONAL_EXPRESSION flags qc))))
                node1
            | .out p2 q2 (.ok opNode) =>
              pfin (parserParse f p2 ASSIGNMENT_EXPRESSION flags q2)
                (parse_node_add_child node1 opNode)
          | .out p1 q1 (.error _) =>
            pfin (palt (parserParse f p1 ASYNC_ARROW_FUNCTION flags q1)
              (fun pa qa =>
                palt (if bits_get flags GP_YIELD_POS then
                        parserParse f pa YIELD_EXPRESSION
                          (bits_clear flags GP_YIELD_POS) qa
                      else .out pa qa (.error Err.noMatch)) (fun pb qb =>
                  palt (parserParse f pb ARROW_FUNCTION flags qb)
                    (fun pc qc =>
                      parserParse f pc CONDITIONAL_EXPRESSION flags qc))))
              (parse_node_new ASSIGNMENT_EXPRESSION)) := rfl
    rw [hred, h1]

/-- C3 witness: all four amended parts at concrete inputs — the empty
input's STATEMENT attempt fails EndOfFile and STATEMENT_LIST_ITEM returns
that same error without trying DECLARATION; on `x "` + newline the
initializer failure is converted to declaration success; with a cached
left-brace token and an exhausted scanner, the right-brace attempt fails
EndOfFile (hard) and BLOCK still proceeds into its STATEMENT_LIST route;
on empty input the left-hand-side route fails EndOfFile (hard) and
ASSIGNMENT_EXPRESSION still falls into the arrow-function reparse. -/
theorem c3_hard_error_chain_stops_witness :
    (∃ p1, parserParse 33 (parser_new []) STATEMENT_LIST_ITEM 0 0 =
      .out p1 0 (.error .endOfFile)) ∧
    (∃ p2 ch, parserParse 33 (parser_new (str2cus "x \"\n"))
        VARIABLE_DECLARATION 0 0 =
      .out p2 1 (.ok (ParseNode.mk VARIABLE_DECLARATION [] [ch]))) ∧
    (∃ p1 q1 lb p2 q2,
      parserParse 8 ⟨scanner_new [], [⟨⟨0, 0, 0⟩, 1, [], 0, TOKEN_LEFT_BRACE⟩]⟩
        TOKEN_LEFT_BRACE 0 0 = .out p1 q1 (.ok lb) ∧
      parserParse 8 p1 TOKEN_RIGHT_BRACE 0 q1 =
        .out p2 q2 (.error .endOfFile) ∧
      parserParse 9 ⟨scanner_new [], [⟨⟨0, 0, 0⟩, 1, [], 0, TOKEN_LEFT_BRACE⟩]⟩
        BLOCK 0 0 =
        pepilogue 0 (pok (parserParse 8 p2 STATEMENT_LIST 0 q2)
          (fun p3 q3 sl => pok (parserParse 8 p3 TOKEN_RIGHT_BRACE 0 q3)
            (fun p4 q4 _ =>
              .out p4 q4 (.ok (parse_node_add_child (parse_node_new BLOCK) sl,
                none)))))) ∧
    (∃ p1 q1,
      parserParse 32 (parser_new []) LHS_EXPRESSION (bits_clear 0 GP_IN_POS) 0 =
        .out p1 q1 (.error .endOfFile) ∧
      parserParse 33 (parser_new []) ASSIGNMENT_EXPRESSION 0 0 =
        pepilogue 0 (pfin
          (palt (parserParse 32 p1 ASYNC_ARROW_FUNCTION 0 q1) (fun pa qa =>
            palt (if bits_get 0 GP_YIELD_POS then
                    parserParse 32 pa YIELD_EXPRESSION
                      (bits_clear 0 GP_YIELD_POS) qa
                  else .out pa qa (.error Err.noMatch)) (fun pb qb =>
              palt (parserParse 32 pb ARROW_FUNCTION 0 qb) (fun pc qc =>
                parserParse 32 pc CONDITIONAL_EXPRESSION 0 qc))))
          (parse_node_new ASSIGNMENT_EXPRESSION))) := by
  refine ⟨?_, ?_, ?_, ?_⟩
  · exact ⟨_, c3_hard_error_chain_stops.1 32 (parser_new []) 0 0 _ 0
      Err.endOfFile (by decide) rfl⟩
  · exact ⟨_, _, c3_hard_error_chain_stops.2.1 32
      (parser_new (str2cus "x \"\n")) 0 0 _ 1 _ _ 1 Err.invalidToken rfl rfl⟩
  · exact ⟨_, _, _, _, _, rfl, rfl, c3_hard_error_chain_stops.2.2.1 8
      ⟨scanner_new [], [⟨⟨0, 0, 0⟩, 1, [], 0, TOKEN_LEFT_BRACE⟩]⟩ 0 0
      _ _ _ _ _ Err.endOfFile rfl rfl⟩
  · exact ⟨_, _, rfl, c3_hard_error_chain_stops.2.2.2 32 (parser_new []) 0 0
      _ _ Err.endOfFile rfl⟩

/-- Holds when a parse result is anything but a NoMatch error. -/
def not_no_match : PRes ParseNode → Prop
  | .out _ _ (.error Err.noMatch) => False
  | _ => True

/-- C2: the repetition behaviour of the list productions.  For
VARIABLE_DECLARATION_LIST, when the attempt to parse one more element
(the separating comma before the next declaration) fails with NoMatch,
the failed attempt's partial node is discarded, the declarations parsed
before it are retained as children, and the list parse succeeds; with no
prior element, the element failure is the list's failure (the grammar
demands at least one declaration).  For STATEMENT_LIST the claimed
trigger can never arise: a STATEMENT_LIST_ITEM attempt never produces
NoMatch, because its alternative chains fall through to unimplemented
handlers (DECLARATION and, inside STATEMENT, EMPTY_STATEMENT) that
terminate the process, so the repetition rule holds there vacuously. -/
theorem c2_list_repetition :
    (∀ f p flags q,
      not_no_match (parserParse f p STATEMENT_LIST_ITEM flags q)) ∧
    (∀ f p flags q node p1 q1 d p2 q2,
      parserParse f p VARIABLE_DECLARATION flags q = .out p1 q1 (.ok d) →
      parserParse f p1 TOKEN_COMMA 0 q1 = .out p2 q2 (.error .noMatch) →
      declListLoop (f + 1) p flags q node =
        .out p2 q2 (.ok (parse_node_add_child node d))) ∧
    (∀ f p flags q p1 q1 e,
      parserParse f p VARIABLE_DECLARATION flags q = .out p1 q1 (.error e) →
      declListLoop (f + 1) p flags q (parse_node_new VARIABLE_DECLARATION_LIST) =
        .out p1 q1 (.error e)) := by
  refine ⟨?_, ?_, ?_⟩
  · intro f p flags q
    cases f with
    | zero => trivial
    | succ f =>
      have hred : parserParse (f + 1) p STATEMENT_LIST_ITEM flags q =
          pepilogue q (pfin (palt (parserParse f p STATEMENT flags q)
            (fun pa qa =>
              parserParse f pa DECLARATION (bits_clear flags GP_RETURN_POS) qa))
            (parse_node_new STATEMENT_LIST_ITEM)) := rfl
      rw [hred]
      rcases hst : parserParse f p STATEMENT flags q with _ | _ | ⟨pa, qa, ra⟩
      · trivial
      · trivial
      · rcases ra with e | ch
        · cases e with
          | noMatch =>
            simp only [palt]
            rcases declaration_is_fatal f pa (bits_clear flags GP_RETURN_POS) qa
              with hd | hd <;> rw [hd] <;> trivial
          | _ => simp [palt, pfin, pepilogue, not_no_match]
        · simp [palt, pfin, pepilogue, not_no_match]
  · intro f p flags q node p1 q1 d p2 q2 h1 h2
    simp only [parserParse] at h1 h2
    simp only [declListLoop, parse_run, parse_body, h1, h2]
  · intro f p flags q p1 q1 e h1
    simp only [parserParse] at h1
    simp only [declListLoop, parse_run, parse_body, h1]
    rfl

/-- C2 witness: on the source `x y` the declaration list parses one
declaration, the comma attempt fails NoMatch at cursor 1, and the list
succeeds retaining that single declaration; on empty input the first
declaration attempt fails and the empty list fails with it. -/
theorem c2_list_repetition_witness :
    (∃ p2 d, declListLoop 33 (parser_new (str2cus "x y")) 0 0
        (parse_node_new VARIABLE_DECLARATION_LIST) =
      .out p2 1 (.ok (parse_node_add_child
        (parse_node_new VARIABLE_DECLARATION_LIST) d))) ∧
    (∃ p1, declListLoop 33 (parser_new []) 0 0
        (parse_node_new VARIABLE_DECLARATION_LIST) =
      .out p1 0 (.error .endOfFile)) := by
  constructor
  · exact ⟨_, _, c2_list_repetition.2.1 32 (parser_new (str2cus "x y")) 0 0
      (parse_node_new VARIABLE_DECLARATION_LIST) _ 1 _ _ 1 rfl rfl⟩
  · exact ⟨_, c2_list_repetition.2.2 32 (parser_new []) 0 0 _ 0
      Err.endOfFile rfl⟩

/-! Preservation of `prev_token_type` through the scanner: only
`scanner_get_next_token` ever writes it (to latch a crossed line
terminator), so every token-building path sees the latched value. -/

/-- `scanner_consume` never touches `prev_token_type`. -/
theorem scanner_consume_prev : ∀ (n : Nat) (s : Scanner),
    (scanner_consume s n).prev_token_type = s.prev_token_type := by
  intro n
  induction n with
  | zero => intro s; rfl
  | succ n ih =>
    intro s
    simp only [scanner_consume]
    split
    · rfl
    · split
      · exact ih _
      · exact ih _

/-- The single-line-comment loop never touches `prev_token_type`. -/
theorem scanner_slc_loop_prev : ∀ (g : Nat) (s : Scanner),
    (scanner_slc_loop s g).prev_token_type = s.prev_token_type := by
  intro g
  induction g with
  | zero => intro s; rfl
  | succ g ih =>
    intro s
    simp only [scanner_slc_loop]
    split
    · rfl
    · split
      · rfl
      · exact (ih _).trans (scanner_consume_prev 1 s)

/-- The multi-line-comment loop never touches `prev_token_type`. -/
theorem scanner_mlc_loop_prev : ∀ (g : Nat) (s : Scanner) (a b : Bool),
    (scanner_mlc_loop s a b g).1.prev_token_type = s.prev_token_type := by
  intro g
  induction g with
  | zero => intro s a b; rfl
  | succ g ih =>
    intro s a b
    simp only [scanner_mlc_loop]
    split
    · rfl
    · split
      · exact (ih _ _ _).trans (scanner_consume_prev 1 s)
      · split
        · exact (ih _ _ _).trans (scanner_consume_prev 1 s)
        · split
          · exact scanner_consume_prev 1 s
          · exact (ih _ _ _).trans (scanner_consume_prev 1 s)

/-- The whitespace-skipping loop never touches `prev_token_type`. -/
theorem scanner_sws_loop_prev : ∀ (g : Nat) (s : Scanner) (b : Bool),
    (scanner_sws_loop s b g).1.prev_token_type = s.prev_token_type := by
  intro g
  induction g with
  | zero => intro s b; rfl
  | succ g ih =>
    intro s b
    simp only [scanner_sws_loop]
    split
    · rfl
    · split
      · exact (ih _ _).trans (scanner_consume_prev 1 s)
      · split
        · rfl
        · split
          · rfl
          · split
            · rfl
            · split
              · split
                · exact (ih _ _).trans
                    ((scanner_slc_loop_prev _ _).trans
                      (scanner_consume_prev 2 s))
                · rfl
              · split
                · exact (ih _ _).trans
                    ((scanner_slc_loop_prev _ _).trans
                      (scanner_consume_prev 2 s))
                · split
                  · split
                    · exact (ih _ _).trans
                        ((scanner_mlc_loop_prev _ _ _ _).trans
                          (scanner_consume_prev 2 s))
                    · exact (scanner_mlc_loop_prev _ _ _ _).trans
                        (scanner_consume_prev 2 s)
                  · rfl

/-- `scanner_skip_white_space` never touches `prev_token_type`. -/
theorem scanner_skip_white_space_prev (s : Scanner) :
    (scanner_skip_white_space s).1.prev_token_type = s.prev_token_type :=
  scanner_sws_loop_prev _ s false

/-- The string loop touches neither `prev_token_type` nor the saved
location (whatever state it stops in). -/
def str_prev_ok (s : Scanner) : StrRes → Prop
  | .fatal => True
  | .serr s1 _ => s1.prev_token_type = s.prev_token_type
  | .sok s1 _ => s1.prev_token_type = s.prev_token_type

theorem str_prev_ok_trans {s s1 : Scanner}
    (hs : s1.prev_token_type = s.prev_token_type) (r : StrRes)
    (h : str_prev_ok s1 r) : str_prev_ok s r := by
  cases r with
  | fatal => trivial
  | serr s2 e => exact h.trans hs
  | sok s2 a => exact h.trans hs

theorem scanner_str_loop_prev : ∀ (g : Nat) (s : Scanner) (dq : Bool)
    (acc : List Nat), str_prev_ok s (scanner_str_loop s dq acc g) := by
  intro g
  induction g with
  | zero => intro s dq acc; exact rfl
  | succ g ih =>
    intro s dq acc
    rcases hpk : scanner_peek s 0 with e | cu
    · rw [scanner_str_loop, hpk]
      exact rfl
    · rw [scanner_str_loop, hpk]
      dsimp only []
      split
      · exact scanner_consume_prev 1 s
      · split
        · exact scanner_consume_prev 1 s
        · split
          · exact scanner_consume_prev 1 s
          · split
            · exact str_prev_ok_trans (scanner_consume_prev 1 s) _ (ih _ _ _)
            · rcases hpk2 : scanner_peek (scanner_consume s 1) 0 with e2 | cu2
              · exact scanner_consume_prev 1 s
              · dsimp only []
                split
                · exact str_prev_ok_trans (by simp [scanner_consume_prev]) _
                    (ih _ _ _)
                · split
                  · exact str_prev_ok_trans (by simp [scanner_consume_prev]) _
                      (ih _ _ _)
                  · exact trivial

/-- The identifier loop touches neither `prev_token_type` nor the saved
location (whatever state it stops in). -/
def id_prev_ok (s : Scanner) : IdRes → Prop
  | .fatal => True
  | .idres s1 _ => s1.prev_token_type = s.prev_token_type

theorem id_prev_ok_trans {s s1 : Scanner}
    (hs : s1.prev_token_type = s.prev_token_type) (r : IdRes)
    (h : id_prev_ok s1 r) : id_prev_ok s r := by
  cases r with
  | fatal => trivial
  | idres s2 a => exact h.trans hs

theorem scanner_id_loop_prev : ∀ (g : Nat) (s : Scanner) (acc : List Nat),
    id_prev_ok s (scanner_id_loop s acc g) := by
  intro g
  induction g with
  | zero => intro s acc; exact rfl
  | succ g ih =>
    intro s acc
    rcases hpk : scanner_peek s 0 with e | cu
    · rw [scanner_id_loop, hpk]
      exact rfl
    · rw [scanner_id_loop, hpk]
      dsimp only []
      split
      · exact rfl
      · split
        · exact trivial
        · split
          · exact rfl
          · split
            · exact rfl
            · exact id_prev_ok_trans (scanner_consume_prev 1 s) _ (ih _ _)

/-- The equals loop never touches `prev_token_type`. -/
theorem scanner_eq_loop_prev : ∀ (g : Nat) (s : Scanner) (ty : Nat),
    (scanner_eq_loop s ty g).1.prev_token_type = s.prev_token_type := by
  intro g
  induction g with
  | zero => intro s ty; rfl
  | succ g ih =>
    intro s ty
    simp only [scanner_eq_loop]
    split
    · rfl
    · split
      · exact (ih _ _).trans (scanner_consume_prev 1 s)
      · split
        · exact scanner_consume_prev 1 s
        · split
          · exact scanner_consume_prev 1 s
          · rfl

/-- Tokens built by `scanner_build_token` with a flag argument whose
newline bit is clear carry the newline-prefixed flag exactly when the
previous-token type records a crossed line terminator. -/
theorem scanner_build_token_nl (s : Scanner) (ty : Nat) :
    token_has_new_line_pfx (scanner_build_token s ty 0) =
      (s.prev_token_type == TOKEN_NEW_LINE) := by
  simp only [scanner_build_token, token_has_new_line_pfx, bits_get, bits_on]
  split
  · simp_all
  · simp_all

/-- `token_set_cooked` does not change the flag set. -/
theorem token_set_cooked_nl (t : Token) (c : List Nat) :
    token_has_new_line_pfx (token_set_cooked t c) =
      token_has_new_line_pfx t := rfl

/-- Specialization: a string loop ending in a token state preserves
`prev_token_type`. -/
theorem str_loop_sok_prev {g : Nat} {s1 s2 : Scanner} {dq : Bool}
    {acc a : List Nat} (h : scanner_str_loop s1 dq acc g = .sok s2 a) :
    s2.prev_token_type = s1.prev_token_type := by
  have hp := scanner_str_loop_prev g s1 dq acc
  rw [h] at hp
  exact hp

/-- Specialization: the identifier loop preserves `prev_token_type`. -/
theorem id_loop_idres_prev {g : Nat} {s1 s2 : Scanner} {acc a : List Nat}
    (h : scanner_id_loop s1 acc g = .idres s2 a) :
    s2.prev_token_type = s1.prev_token_type := by
  have hp := scanner_id_loop_prev g s1 acc
  rw [h] at hp
  exact hp

/-- Any token produced by `scanner_scan_next_token` carries the
newline-prefixed flag exactly when the previous-token type (which only
`scanner_get_next_token` ever writes) recorded a crossed line
terminator. -/
theorem scanner_scan_next_token_nl (s s' : Scanner) (t : Token)
    (h : scanner_scan_next_token s = .res s' (.ok t)) :
    token_has_new_line_pfx t = (s.prev_token_type == TOKEN_NEW_LINE) := by
  simp only [scanner_scan_next_token] at h
  split at h
  · cases h
  · split at h
    · -- string literal
      simp only [scanner_scan_string] at h
      split at h
      · cases h
      · split at h
        · cases h
        · cases h
        · rename_i hloop
          cases h
          rw [token_set_cooked_nl, scanner_build_token_nl]
          rw [str_loop_sok_prev hloop, scanner_consume_prev]
    · split at h
      · -- equals family
        simp only [scanner_scan_equals] at h
        cases h
        rw [scanner_build_token_nl, scanner_eq_loop_prev, scanner_consume_prev]
      · split at h
        · -- identifier / keyword
          simp only [scanner_scan_identifier] at h
          split at h
          · cases h
          · rename_i hloop
            split at h
            · cases h
            · cases h
              split
              · rw [token_set_cooked_nl, scanner_build_token_nl,
                  id_loop_idres_prev hloop]
              · rw [scanner_build_token_nl, id_loop_idres_prev hloop]
        · cases h

/-- Any token produced by `scanner_get_next_token` is flagged
newline-prefixed exactly when the preceding skip crossed a line
terminator or the previous-token type was already latched to
TOKEN_NEW_LINE by an earlier call — the latch is never cleared. -/
theorem scanner_get_next_token_nl (s s1 : Scanner) (t : Token)
    (h : scanner_get_next_token s = .res s1 (.ok t)) :
    token_has_new_line_pfx t =
      ((scanner_skip_white_space s).2 ||
        (s.prev_token_type == TOKEN_NEW_LINE)) := by
  simp only [scanner_get_next_token] at h
  split at h
  · cases h
  · cases h
  · rename_i s3 tok heq
    cases h
    rw [scanner_scan_next_token_nl _ _ _ heq]
    cases hb : (scanner_skip_white_space s).2
    · simp [scanner_skip_white_space_prev]
    · simp

/-- C7 counterexample: in `a\nb c` the token `b` is flagged
newline-prefixed, but so is the token `c`, even though the whitespace
skip before `c` (a single space, from the state reached after scanning
`a` and `b`) crosses no line terminator: `prev_token_type` is latched to
TOKEN_NEW_LINE at the first crossed line terminator and never cleared, so
the flag is not carried by exactly the next produced token. -/
theorem c7_flag_not_only_next_token :
    ((scan_list (scanner_new (str2cus "a\nb c")) 3).map
      token_has_new_line_pfx = [false, true, true]) ∧
    (scanner_skip_white_space
      (scan_state (scanner_new (str2cus "a\nb c")) 2)).2 = false :=
  ⟨rfl, rfl⟩

/-- C7 amended: in `a\nb` the token for `b` is flagged newline-prefixed
and in `a b` it is not; in general a produced token carries the flag
exactly when its own whitespace skip crossed a line terminator or some
earlier skip did (the TOKEN_NEW_LINE latch in `prev_token_type` is never
cleared, so every token after the first crossed line terminator is
flagged). -/
theorem c7_newline_flag_latched :
    ((scan_list (scanner_new (str2cus "a\nb")) 2).map
      token_has_new_line_pfx = [false, true]) ∧
    ((scan_list (scanner_new (str2cus "a b")) 2).map
      token_has_new_line_pfx = [false, false]) ∧
    (∀ s s1 t, scanner_get_next_token s = .res s1 (.ok t) →
      token_has_new_line_pfx t =
        ((scanner_skip_white_space s).2 ||
          (s.prev_token_type == TOKEN_NEW_LINE))) :=
  ⟨rfl, rfl, scanner_get_next_token_nl⟩

/-- C7 witness: the amended rule applied to the concrete single-token
source `a`: no line terminator is crossed and the token is unflagged. -/
theorem c7_newline_flag_latched_witness :
    ∃ s1 t, scanner_get_next_token (scanner_new (str2cus "a")) =
      .res s1 (.ok t) ∧ token_has_new_line_pfx t = false := by
  have h : ∃ s1 t, scanner_get_next_token (scanner_new (str2cus "a")) =
      .res s1 (.ok t) := ⟨_, _, rfl⟩
  obtain ⟨s1, t, ht⟩ := h
  refine ⟨s1, t, ht, ?_⟩
  rw [c7_newline_flag_latched.2.2 _ _ _ ht]
  rfl

/-- Modelled from the spec wording of the keyword claim: `p` occurs at the
head of `l`. -/
def list_starts : List Nat → List Nat → Bool
  | [], _ => true
  | _ :: _, [] => false
  | a :: ps, b :: ls => a == b && list_starts ps ls

/-- Modelled from the spec wording of the keyword claim: `p` occurs as a
contiguous substring of `l`. -/
def list_within (p l : List Nat) : Bool :=
  match l with
  | [] => p.isEmpty
  | _ :: ls => list_starts p l || list_within p ls

/-- Modelled from the spec wording of the keyword claim: `p` is a proper
contiguous substring of `l`. -/
def list_proper_within (p l : List Nat) : Bool :=
  list_within p l && !(p == l)

/-- `kw_find` returns `none` exactly on spellings absent from the table. -/
theorem kw_find_none (ks : List (List Nat)) (acc : List Nat) :
    kw_find ks acc = none ↔ acc ∉ ks := by
  induction ks with
  | nil => simp [kw_find]
  | cons k ks ih =>
    simp only [kw_find, List.mem_cons]
    by_cases h : acc = k
    · simp [h]
    · simp [h, Option.map_eq_none', ih]

/-- `kw_find` returns the first table index whose entry equals the
accumulated spelling. -/
theorem kw_find_some : ∀ (ks : List (List Nat)) (acc : List Nat) (i : Nat),
    kw_find ks acc = some i →
    ks[i]? = some acc ∧ ∀ j, j < i → ks[j]? ≠ some acc := by
  intro ks
  induction ks with
  | nil => intro acc i h; simp [kw_find] at h
  | cons k ks ih =>
    intro acc i h
    simp only [kw_find] at h
    by_cases hk : acc = k
    · rw [if_pos hk] at h
      injection h with h0
      subst h0
      exact ⟨by simp [hk], fun j hj => absurd hj (Nat.not_lt_zero j)⟩
    · rw [if_neg hk] at h
      obtain ⟨i', hi', rfl⟩ := Option.map_eq_some'.mp h
      obtain ⟨hget, hmin⟩ := ih acc i' hi'
      refine ⟨by simpa using hget, ?_⟩
      intro j hj
      cases j with
      | zero =>
        simp only [List.getElem?_cons_zero, ne_eq, Option.some.injEq]
        exact fun hc => hk hc.symm
      | succ j' =>
        simp only [List.getElem?_cons_succ]
        exact hmin j' (by omega)

/-- The table decision of `scanner_scan_identifier`: a non-empty
accumulation that equals a table entry becomes the dedicated token type of
the first such entry (with empty cooked text); one absent from the table
becomes the generic TOKEN_IDENTIFIER carrying the accumulated text. -/
theorem scanner_scan_identifier_table (s s2 : Scanner) (acc : List Nat)
    (hloop : scanner_id_loop s [] (s.src.length + 1) = .idres s2 acc)
    (hne : acc.isEmpty = false) :
    ∃ t, scanner_scan_identifier s = .res s2 (.ok t) ∧
      ((∃ i, g_key_words[i]? = some acc ∧
          (∀ j, j < i → g_key_words[j]? ≠ some acc) ∧
          t.type = TOKEN_IDENTIFIER + i + 1 ∧ t.cooked = []) ∨
        (acc ∉ g_key_words ∧ t.type = TOKEN_IDENTIFIER ∧ t.cooked = acc)) := by
  rcases hkf : kw_find g_key_words acc with _ | i
  · have hrun : scanner_scan_identifier s =
        .res s2 (.ok (token_set_cooked
          (scanner_build_token s2 TOKEN_IDENTIFIER 0) acc)) := by
      simp [scanner_scan_identifier, hloop, hne, hkf]
    exact ⟨_, hrun, Or.inr ⟨(kw_find_none _ _).mp hkf, rfl, rfl⟩⟩
  · have hif : (TOKEN_IDENTIFIER + i + 1 == TOKEN_IDENTIFIER) = false := by
      simp only [TOKEN_IDENTIFIER, beq_eq_false_iff_ne, ne_eq]
      omega
    have hrun : scanner_scan_identifier s =
        .res s2 (.ok (scanner_build_token s2 (TOKEN_IDENTIFIER + i + 1) 0)) := by
      simp [scanner_scan_identifier, hloop, hne, hkf, hif]
    obtain ⟨hget, hmin⟩ := kw_find_some g_key_words acc i hkf
    exact ⟨_, hrun, Or.inl ⟨i, hget, hmin, rfl, rfl⟩⟩

/-- C6 counterexample: `in` is a proper contiguous substring of the table
keyword `instanceof`, yet scanning the source `in` produces the dedicated
type TOKEN_IN, not the generic TOKEN_IDENTIFIER: being a proper substring
of a keyword does not force a generic identifier, because the substring
can itself be a keyword. -/
theorem c6_substring_of_keyword_not_generic :
    list_proper_within (str2cus "in") (str2cus "instanceof") = true ∧
    g_key_words.contains (str2cus "instanceof") = true ∧
    g_key_words.contains (str2cus "in") = true ∧
    (∃ s2 t, scanner_get_next_token (scanner_new (str2cus "in")) =
        .res s2 (.ok t) ∧ t.type = TOKEN_IN) ∧
    TOKEN_IN ≠ TOKEN_IDENTIFIER :=
  ⟨rfl, rfl, rfl, ⟨_, _, rfl, rfl⟩, by decide⟩

/-- C6 amended: the table lookup is an exact whole-spelling match, not a
substring test: a non-empty escape-free accumulation equal to a table
entry gets that entry's dedicated type (TOKEN_IDENTIFIER + first matching
index + 1) with no cooked text, and one absent from the table gets the
generic TOKEN_IDENTIFIER carrying its text.  Substring relations to
keywords decide nothing by themselves: a proper superstring of a keyword
may itself be a keyword — `async` properly contains the keyword `as` and
scans to its dedicated TOKEN_ASYNC — while the non-keyword superstring
`variable` of `var` scans generic; likewise (the counterexample) a proper
substring of a keyword may be a keyword. -/
theorem c6_keyword_exact_match :
    (∃ s2 t, scanner_get_next_token (scanner_new (str2cus "var")) =
        .res s2 (.ok t) ∧ t.type = TOKEN_VAR) ∧
    TOKEN_VAR = TOKEN_IDENTIFIER + 49 + 1 ∧
    g_key_words[49]? = some (str2cus "var") ∧
    (∃ s2 t, scanner_get_next_token (scanner_new (str2cus "variable")) =
        .res s2 (.ok t) ∧ t.type = TOKEN_IDENTIFIER ∧
        t.cooked = str2cus "variable") ∧
    list_proper_within (str2cus "var") (str2cus "variable") = true ∧
    list_proper_within (str2cus "as") (str2cus "async") = true ∧
    g_key_words.contains (str2cus "as") = true ∧
    (∃ s2 t, scanner_get_next_token (scanner_new (str2cus "async")) =
        .res s2 (.ok t) ∧ t.type = TOKEN_ASYNC) ∧
    TOKEN_ASYNC ≠ TOKEN_IDENTIFIER ∧
    (∀ s s2 acc, scanner_id_loop s [] (s.src.length + 1) = .idres s2 acc →
      acc.isEmpty = false →
      ∃ t, scanner_scan_identifier s = .res s2 (.ok t) ∧
        ((∃ i, g_key_words[i]? = some acc ∧
            (∀ j, j < i → g_key_words[j]? ≠ some acc) ∧
            t.type = TOKEN_IDENTIFIER + i + 1 ∧ t.cooked = []) ∨
          (acc ∉ g_key_words ∧ t.type = TOKEN_IDENTIFIER ∧
            t.cooked = acc))) :=
  ⟨⟨_, _, rfl, rfl⟩, rfl, rfl, ⟨_, _, rfl, rfl, rfl⟩, rfl, rfl, rfl,
    ⟨_, _, rfl, rfl⟩, by decide, scanner_scan_identifier_table⟩

/-- C6 witness: the exact-match rule applied to the concrete source `do`,
whose accumulation is the keyword at table index 16. -/
theorem c6_keyword_exact_match_witness :
    ∃ s2 acc, scanner_id_loop (scanner_new (str2cus "do")) []
        ((scanner_new (str2cus "do")).src.length + 1) = .idres s2 acc ∧
      acc.isEmpty = false ∧
      ∃ t, scanner_scan_identifier (scanner_new (str2cus "do")) =
          .res s2 (.ok t) ∧
        ((∃ i, g_key_words[i]? = some acc ∧
            (∀ j, j < i → g_key_words[j]? ≠ some acc) ∧
            t.type = TOKEN_IDENTIFIER + i + 1 ∧ t.cooked = []) ∨
          (acc ∉ g_key_words ∧ t.type = TOKEN_IDENTIFIER ∧
            t.cooked = acc)) :=
  ⟨_, _, rfl, rfl, c6_keyword_exact_match.2.2.2.2.2.2.2.2.2 _ _ _ rfl rfl⟩

/-! The token cache of `struct parser`: `parser_get_token` only ever
appends to `tokens`, so across any `parser_parse` run the cache at entry
is a prefix of the cache at exit. -/

/-- `t1` carries `t0` as an unchanged prefix. -/
def tokens_extend (t0 t1 : List Token) : Prop :=
  ∃ t, t1 = t0 ++ t

/-- A parse result whose parser state (when there is one) extends the
token cache `t0`. -/
def pres_ext {α : Type} (t0 : List Token) : PRes α → Prop
  | .fatal => True
  | .fuelOut => True
  | .out p _ _ => tokens_extend t0 p.tokens

/-- Parser state a pending invocation starts from. -/
def PCall.pstate : PCall → Parser
  | .parse p _ _ _ => p
  | .stmtList p _ _ _ => p
  | .declList p _ _ _ => p
  | .post p _ _ _ _ _ => p
  | .optChain p _ _ _ _ => p
  | .assignOps p _ _ => p

theorem tokens_extend_refl (t : List Token) : tokens_extend t t :=
  ⟨[], by simp⟩

theorem tokens_extend_trans {a b c : List Token}
    (h1 : tokens_extend a b) (h2 : tokens_extend b c) : tokens_extend a c := by
  obtain ⟨x, rfl⟩ := h1
  obtain ⟨y, rfl⟩ := h2
  exact ⟨x ++ y, by simp⟩

theorem pres_ext_mono {α : Type} {t0 t1 : List Token} {r : PRes α}
    (h : tokens_extend t0 t1) (hr : pres_ext t1 r) : pres_ext t0 r := by
  cases r with
  | fatal => trivial
  | fuelOut => trivial
  | out p q e => exact tokens_extend_trans h hr

theorem pres_res_ext {α : Type} {t0 : List Token} {r1 r2 : PRes α}
    (h : pres_ext t0 r1) (heq : r1 = r2) : pres_ext t0 r2 := heq ▸ h

theorem pout_ext {α : Type} {t0 : List Token} {p : Parser} {q : Nat}
    {r : Except Err α} (h : tokens_extend t0 p.tokens) :
    pres_ext t0 (PRes.out p q r) := h

theorem pres_ext_ite {α : Type} {t0 : List Token} {c : Prop} [Decidable c]
    {a b : PRes α} (ha : pres_ext t0 a) (hb : pres_ext t0 b) :
    pres_ext t0 (if c then a else b) := by
  split
  · exact ha
  · exact hb

/-- `parser_get_token` never drops a cached token: it returns the cache
unchanged or appends exactly one entry. -/
theorem pget_ext {p p1 : Parser} {pos : Nat} {r : Except Err (Token × Nat)}
    (h : parser_get_token p pos = .gres p1 r) :
    tokens_extend p.tokens p1.tokens := by
  simp only [parser_get_token] at h
  split at h
  · cases h
    exact tokens_extend_refl _
  · split at h
    · split at h
      · cases h
      · cases h
        exact tokens_extend_refl _
      · cases h
        exact ⟨_, rfl⟩
    · cases h
      exact tokens_extend_refl _

theorem pok_ext {α β : Type} {t0 : List Token} {r : PRes α}
    {k : Parser → Nat → α → PRes β}
    (hr : pres_ext t0 r)
    (hk : ∀ p q a, tokens_extend t0 p.tokens → pres_ext t0 (k p q a)) :
    pres_ext t0 (pok r k) := by
  cases r with
  | fatal => trivial
  | fuelOut => trivial
  | out p q e =>
    cases e with
    | error e => exact hr
    | ok a => exact hk p q a hr

theorem palt_ext {α : Type} {t0 : List Token} {r : PRes α}
    {k : Parser → Nat → PRes α}
    (hr : pres_ext t0 r)
    (hk : ∀ p q, tokens_extend t0 p.tokens → pres_ext t0 (k p q)) :
    pres_ext t0 (palt r k) := by
  cases r with
  | fatal => trivial
  | fuelOut => trivial
  | out p q e =>
    cases e with
    | ok a => exact hr
    | error e => cases e <;> first | exact hk p q hr | exact hr

theorem pfin_ext {t0 : List Token} {r : PRes ParseNode} {node : ParseNode}
    (hr : pres_ext t0 r) : pres_ext t0 (pfin r node) := by
  cases r with
  | fatal => trivial
  | fuelOut => trivial
  | out p q e => cases e <;> exact hr

theorem pnodeOnly_ext {t0 : List Token} {r : PRes ParseNode}
    (hr : pres_ext t0 r) : pres_ext t0 (pnodeOnly r) := by
  cases r with
  | fatal => trivial
  | fuelOut => trivial
  | out p q e => cases e <;> exact hr

theorem pswallow_ext {t0 : List Token} {r : PRes ParseNode}
    {node : ParseNode} (hr : pres_ext t0 r) :
    pres_ext t0 (pswallow r node) := by
  cases r with
  | fatal => trivial
  | fuelOut => trivial
  | out p q e => cases e <;> exact hr

theorem pepilogue_ext {t0 : List Token} {inq : Nat}
    {r : PRes (ParseNode × Option ParseNode)}
    (hr : pres_ext t0 r) : pres_ext t0 (pepilogue inq r) := by
  cases r with
  | fatal => trivial
  | fuelOut => trivial
  | out p q e =>
    cases e with
    | error e => exact hr
    | ok a => obtain ⟨node, child⟩ := a; exact hr

theorem rec_out_ext {rec : PCall → PRes ParseNode}
    (hrec : ∀ c, pres_ext (PCall.pstate c).tokens (rec c))
    {t0 : List Token} {c : PCall} {p : Parser} {q : Nat}
    {r : Except Err ParseNode}
    (heq : rec c = .out p q r)
    (hbase : tokens_extend t0 (PCall.pstate c).tokens) :
    tokens_extend t0 p.tokens := by
  have h := hrec c
  rw [heq] at h
  exact tokens_extend_trans hbase h

theorem rec_res_ext {rec : PCall → PRes ParseNode}
    (hrec : ∀ c, pres_ext (PCall.pstate c).tokens (rec c))
    {t0 : List Token} {c : PCall} {r : PRes ParseNode}
    (heq : rec c = r)
    (hbase : tokens_extend t0 (PCall.pstate c).tokens) :
    pres_ext t0 r :=
  heq ▸ pres_ext_mono hbase (hrec c)

theorem rec_parse_out_ext {rec : PCall → PRes ParseNode}
    (hrec : ∀ c, pres_ext (PCall.pstate c).tokens (rec c))
    {t0 : List Token} {pb : Parser} {ty fl qb : Nat} {p : Parser} {q : Nat}
    {r : Except Err ParseNode}
    (heq : rec (.parse pb ty fl qb) = .out p q r)
    (hbase : tokens_extend t0 pb.tokens) :
    tokens_extend t0 p.tokens :=
  rec_out_ext hrec heq hbase

theorem rec_assign_out_ext {rec : PCall → PRes ParseNode}
    (hrec : ∀ c, pres_ext (PCall.pstate c).tokens (rec c))
    {t0 : List Token} {pb : Parser} {qb : Nat} {ops : List Nat}
    {p : Parser} {q : Nat} {r : Except Err ParseNode}
    (heq : rec (.assignOps pb qb ops) = .out p q r)
    (hbase : tokens_extend t0 pb.tokens) :
    tokens_extend t0 p.tokens :=
  rec_out_ext hrec heq hbase

theorem rec_parse_res_ext {rec : PCall → PRes ParseNode}
    (hrec : ∀ c, pres_ext (PCall.pstate c).tokens (rec c))
    {t0 : List Token} {pb : Parser} {ty fl qb : Nat} {r : PRes ParseNode}
    (heq : rec (.parse pb ty fl qb) = r)
    (hbase : tokens_extend t0 pb.tokens) :
    pres_ext t0 r :=
  rec_res_ext hrec heq hbase

/-- The `;`-or-newline terminator attempt of the VARIABLE_STATEMENT
handler only appends to the cache. -/
theorem var_stmt_palt_ext {rec : PCall → PRes ParseNode}
    (hrec : ∀ c, pres_ext (PCall.pstate c).tokens (rec c))
    {t0 : List Token} {p2 : Parser} {q2 : Nat} {p4 : Parser} {q4 : Nat}
    {r : Except Err ParseNode}
    (heq : palt (rec (.parse p2 TOKEN_NEW_LINE 0 q2))
        (fun p3 q3 => rec (.parse p3 TOKEN_SEMI_COLON 0 q3)) = .out p4 q4 r)
    (hbase : tokens_extend t0 p2.tokens) :
    tokens_extend t0 p4.tokens := by
  have h := palt_ext
      (pres_ext_mono hbase (hrec (.parse p2 TOKEN_NEW_LINE 0 q2)))
      (fun p3 q3 h3 =>
        pres_ext_mono h3 (hrec (.parse p3 TOKEN_SEMI_COLON 0 q3)))
  rw [heq] at h
  exact h

/-- One step of the `parser_parse` recursion only appends to the token
cache, provided every recursive occurrence does. -/
theorem parse_body_ext (rec : PCall → PRes ParseNode)
    (hrec : ∀ c, pres_ext (PCall.pstate c).tokens (rec c)) :
    ∀ c, pres_ext (PCall.pstate c).tokens (parse_body rec c) := by
  intro c
  cases c with
  | parse p ty flags q =>
    dsimp only [parse_body, PCall.pstate]
    apply pepilogue_ext
    repeat' first
    | exact True.intro
    | exact hrec _
    | apply pepilogue_ext
    | apply pfin_ext
    | apply pnodeOnly_ext
    | apply pswallow_ext
    | apply pok_ext
    | apply palt_ext
    | (refine pres_ext_mono ?_ (hrec _) ; dsimp only [PCall.pstate] ;
        (repeat first
          | exact tokens_extend_refl _
          | assumption
          | exact pget_ext (by assumption)
          | refine rec_parse_out_ext hrec (by assumption) ?_
          | refine rec_assign_out_ext hrec (by assumption) ?_
          | refine var_stmt_palt_ext hrec (by assumption) ?_) ;
        done)
    | (apply pout_ext ;
        (repeat first
          | exact tokens_extend_refl _
          | assumption
          | exact pget_ext (by assumption)
          | refine rec_parse_out_ext hrec (by assumption) ?_
          | refine rec_assign_out_ext hrec (by assumption) ?_
          | refine var_stmt_palt_ext hrec (by assumption) ?_) ;
        done)
    | (refine rec_parse_res_ext hrec (by assumption) ?_ ;
        (repeat first
          | exact tokens_extend_refl _
          | assumption
          | exact pget_ext (by assumption)
          | refine rec_parse_out_ext hrec (by assumption) ?_
          | refine rec_assign_out_ext hrec (by assumption) ?_
          | refine var_stmt_palt_ext hrec (by assumption) ?_) ;
        done)
    | apply pres_ext_ite
    | split
    | intro x
    | dsimp only []
  | stmtList p flags q node =>
    dsimp only [parse_body, PCall.pstate]
    repeat' first
    | exact True.intro
    | exact hrec _
    | apply pepilogue_ext
    | apply pfin_ext
    | apply pnodeOnly_ext
    | apply pswallow_ext
    | apply pok_ext
    | apply palt_ext
    | (refine pres_ext_mono ?_ (hrec _) ; dsimp only [PCall.pstate] ;
        (repeat first
          | exact tokens_extend_refl _
          | assumption
          | exact pget_ext (by assumption)
          | refine rec_parse_out_ext hrec (by assumption) ?_
          | refine rec_assign_out_ext hrec (by assumption) ?_
          | refine var_stmt_palt_ext hrec (by assumption) ?_) ;
        done)
    | (apply pout_ext ;
        (repeat first
          | exact tokens_extend_refl _
          | assumption
          | exact pget_ext (by assumption)
          | refine rec_parse_out_ext hrec (by assumption) ?_
          | refine rec_assign_out_ext hrec (by assumption) ?_
          | refine var_stmt_palt_ext hrec (by assumption) ?_) ;
        done)
    | (refine rec_parse_res_ext hrec (by assumption) ?_ ;
        (repeat first
          | exact tokens_extend_refl _
          | assumption
          | exact pget_ext (by assumption)
          | refine rec_parse_out_ext hrec (by assumption) ?_
          | refine rec_assign_out_ext hrec (by assumption) ?_
          | refine var_stmt_palt_ext hrec (by assumption) ?_) ;
        done)
    | apply pres_ext_ite
    | split
    | intro x
    | dsimp only []
  | declList p flags q node =>
    dsimp only [parse_body, PCall.pstate]
    repeat' first
    | exact True.intro
    | exact hrec _
    | apply pepilogue_ext
    | apply pfin_ext
    | apply pnodeOnly_ext
    | apply pswallow_ext
    | apply pok_ext
    | apply palt_ext
    | (refine pres_ext_mono ?_ (hrec _) ; dsimp only [PCall.pstate] ;
        (repeat first
          | exact tokens_extend_refl _
          | assumption
          | exact pget_ext (by assumption)
          | refine rec_parse_out_ext hrec (by assumption) ?_
          | refine rec_assign_out_ext hrec (by assumption) ?_
          | refine var_stmt_palt_ext hrec (by assumption) ?_) ;
        done)
    | (apply pout_ext ;
        (repeat first
          | exact tokens_extend_refl _
          | assumption
          | exact pget_ext (by assumption)
          | refine rec_parse_out_ext hrec (by assumption) ?_
          | refine rec_assign_out_ext hrec (by assumption) ?_
          | refine var_stmt_palt_ext hrec (by assumption) ?_) ;
        done)
    | (refine rec_parse_res_ext hrec (by assumption) ?_ ;
        (repeat first
          | exact tokens_extend_refl _
          | assumption
          | exact pget_ext (by assumption)
          | refine rec_parse_out_ext hrec (by assumption) ?_
          | refine rec_assign_out_ext hrec (by assumption) ?_
          | refine var_stmt_palt_ext hrec (by assumption) ?_) ;
        done)
    | apply pres_ext_ite
    | split
    | intro x
    | dsimp only []
  | post p inTy inFlags flags q node =>
    dsimp only [parse_body, PCall.pstate]
    by_cases hin : (inTy != MEMBER_EXPRESSION_POST) = true
    all_goals first
      | simp only [if_pos hin]
      | simp only [if_neg hin]
    all_goals
      repeat' first
    | exact True.intro
    | exact hrec _
    | apply pepilogue_ext
    | apply pfin_ext
    | apply pnodeOnly_ext
    | apply pswallow_ext
    | apply pok_ext
    | apply palt_ext
    | (refine pres_ext_mono ?_ (hrec _) ; dsimp only [PCall.pstate] ;
        (repeat first
          | exact tokens_extend_refl _
          | assumption
          | exact pget_ext (by assumption)
          | refine rec_parse_out_ext hrec (by assumption) ?_
          | refine rec_assign_out_ext hrec (by assumption) ?_
          | refine var_stmt_palt_ext hrec (by assumption) ?_) ;
        done)
    | (apply pout_ext ;
        (repeat first
          | exact tokens_extend_refl _
          | assumption
          | exact pget_ext (by assumption)
          | refine rec_parse_out_ext hrec (by assumption) ?_
          | refine rec_assign_out_ext hrec (by assumption) ?_
          | refine var_stmt_palt_ext hrec (by assumption) ?_) ;
        done)
    | (refine rec_parse_res_ext hrec (by assumption) ?_ ;
        (repeat first
          | exact tokens_extend_refl _
          | assumption
          | exact pget_ext (by assumption)
          | refine rec_parse_out_ext hrec (by assumption) ?_
          | refine rec_assign_out_ext hrec (by assumption) ?_
          | refine var_stmt_palt_ext hrec (by assumption) ?_) ;
        done)
    | apply pres_ext_ite
    | split
    | intro x
    | dsimp only []
  | optChain p flags q node hasChain =>
    dsimp only [parse_body, PCall.pstate]
    repeat' first
    | exact True.intro
    | exact hrec _
    | apply pepilogue_ext
    | apply pfin_ext
    | apply pnodeOnly_ext
    | apply pswallow_ext
    | apply pok_ext
    | apply palt_ext
    | (refine pres_ext_mono ?_ (hrec _) ; dsimp only [PCall.pstate] ;
        (repeat first
          | exact tokens_extend_refl _
          | assumption
          | exact pget_ext (by assumption)
          | refine rec_parse_out_ext hrec (by assumption) ?_
          | refine rec_assign_out_ext hrec (by assumption) ?_
          | refine var_stmt_palt_ext hrec (by assumption) ?_) ;
        done)
    | (apply pout_ext ;
        (repeat first
          | exact tokens_extend_refl _
          | assumption
          | exact pget_ext (by assumption)
          | refine rec_parse_out_ext hrec (by assumption) ?_
          | refine rec_assign_out_ext hrec (by assumption) ?_
          | refine var_stmt_palt_ext hrec (by assumption) ?_) ;
        done)
    | (refine rec_parse_res_ext hrec (by assumption) ?_ ;
        (repeat first
          | exact tokens_extend_refl _
          | assumption
          | exact pget_ext (by assumption)
          | refine rec_parse_out_ext hrec (by assumption) ?_
          | refine rec_assign_out_ext hrec (by assumption) ?_
          | refine var_stmt_palt_ext hrec (by assumption) ?_) ;
        done)
    | apply pres_ext_ite
    | split
    | intro x
    | dsimp only []
  | assignOps p q ops =>
    cases ops with
    | nil =>
      dsimp only [parse_body, PCall.pstate]
      exact pout_ext (tokens_extend_refl _)
    | cons op rest =>
      dsimp only [parse_body, PCall.pstate]
      repeat' first
    | exact True.intro
    | exact hrec _
    | apply pepilogue_ext
    | apply pfin_ext
    | apply pnodeOnly_ext
    | apply pswallow_ext
    | apply pok_ext
    | apply palt_ext
    | (refine pres_ext_mono ?_ (hrec _) ; dsimp only [PCall.pstate] ;
        (repeat first
          | exact tokens_extend_refl _
          | assumption
          | exact pget_ext (by assumption)
          | refine rec_parse_out_ext hrec (by assumption) ?_
          | refine rec_assign_out_ext hrec (by assumption) ?_
          | refine var_stmt_palt_ext hrec (by assumption) ?_) ;
        done)
    | (apply pout_ext ;
        (repeat first
          | exact tokens_extend_refl _
          | assumption
          | exact pget_ext (by assumption)
          | refine rec_parse_out_ext hrec (by assumption) ?_
          | refine rec_assign_out_ext hrec (by assumption) ?_
          | refine var_stmt_palt_ext hrec (by assumption) ?_) ;
        done)
    | (refine rec_parse_res_ext hrec (by assumption) ?_ ;
        (repeat first
          | exact tokens_extend_refl _
          | assumption
          | exact pget_ext (by assumption)
          | refine rec_parse_out_ext hrec (by assumption) ?_
          | refine rec_assign_out_ext hrec (by assumption) ?_
          | refine var_stmt_palt_ext hrec (by assumption) ?_) ;
        done)
    | apply pres_ext_ite
    | split
    | intro x
    | dsimp only []

/-- Across any fuelled `parser_parse` invocation (loop iterations
included) the token cache at entry is a prefix of the cache at exit. -/
theorem parse_run_ext : ∀ (fuel : Nat) (c : PCall),
    pres_ext (PCall.pstate c).tokens (parse_run fuel c) := by
  intro fuel
  induction fuel with
  | zero => intro c; exact True.intro
  | succ f ih => intro c; exact parse_body_ext (parse_run f) ih c

/-- C8: the token-cache discipline of `parser_get_token`: an
already-cached position is served from the cache with the parser
unchanged (the scanner is not consulted); the position equal to the cache
end pulls exactly one token from the scanner and appends it, growing the
cache by exactly one entry, and returns that token; a position beyond the
cache end fails with ERR_INVALID_PARAMETER; and across any whole
`parser_parse` run the cache at entry survives as an unchanged prefix of
the cache at exit — no entry is evicted or replaced. -/
theorem c8_token_cache :
    (∀ p pos, pos < p.tokens.length →
      parser_get_token p pos =
        .gres p (.ok (p.tokens.getD pos dummy_token, pos + 1))) ∧
    (∀ p pos s tok, pos = p.tokens.length →
      scanner_get_next_token p.scanner = .res s (.ok tok) →
      parser_get_token p pos =
        .gres { scanner := s, tokens := p.tokens ++ [tok] }
          (.ok (tok, pos + 1)) ∧
      (p.tokens ++ [tok]).length = p.tokens.length + 1) ∧
    (∀ p pos, p.tokens.length < pos →
      parser_get_token p pos = .gres p (.error .invalidParameter)) ∧
    (∀ fuel p ty flags q p1 q1 r,
      parserParse fuel p ty flags q = .out p1 q1 r →
      ∃ t, p1.tokens = p.tokens ++ t) := by
  refine ⟨?_, ?_, ?_, ?_⟩
  · intro p pos h
    simp only [parser_get_token]
    rw [if_neg (by omega), if_neg (by simp only [beq_iff_eq]; omega)]
  · intro p pos s tok hpos hscan
    subst hpos
    refine ⟨?_, by simp⟩
    simp [parser_get_token, hscan]
  · intro p pos h
    simp only [parser_get_token]
    rw [if_pos h]
  · intro fuel p ty flags q p1 q1 r h
    have hx := parse_run_ext fuel (.parse p ty flags q)
    unfold parserParse at h
    rw [h] at hx
    exact hx

/-- C8 witness: all four cache behaviours at concrete parser states over
the one-token source `=`. -/
theorem c8_token_cache_witness :
    parser_get_token ⟨scanner_new (str2cus "="), [dummy_token]⟩ 0 =
      .gres ⟨scanner_new (str2cus "="), [dummy_token]⟩
        (.ok (dummy_token, 1)) ∧
    (∃ s tok,
      scanner_get_next_token (scanner_new (str2cus "=")) =
        .res s (.ok tok) ∧
      parser_get_token ⟨scanner_new (str2cus "="), []⟩ 0 =
        .gres ⟨s, [tok]⟩ (.ok (tok, 1))) ∧
    parser_get_token ⟨scanner_new (str2cus "="), [dummy_token]⟩ 3 =
      .gres ⟨scanner_new (str2cus "="), [dummy_token]⟩
        (.error .invalidParameter) ∧
    (∃ p1 q1 r t,
      parserParse 1 (parser_new (str2cus "=")) TOKEN_EQUALS 0 0 =
        .out p1 q1 r ∧
      p1.tokens = (parser_new (str2cus "=")).tokens ++ t) := by
  refine ⟨?_, ?_, ?_, ?_⟩
  · exact c8_token_cache.1 ⟨scanner_new (str2cus "="), [dummy_token]⟩ 0
      (by decide)
  · obtain ⟨s, tok, hscan⟩ :
        ∃ s tok, scanner_get_next_token (scanner_new (str2cus "=")) =
          .res s (.ok tok) := ⟨_, _, rfl⟩
    refine ⟨s, tok, hscan, ?_⟩
    have h := (c8_token_cache.2.1 ⟨scanner_new (str2cus "="), []⟩ 0 s tok
      rfl hscan).1
    simpa using h
  · exact c8_token_cache.2.2.1 ⟨scanner_new (str2cus "="), [dummy_token]⟩ 3
      (by decide)
  · obtain ⟨p1, q1, r, hrun⟩ :
        ∃ p1 q1 r, parserParse 1 (parser_new (str2cus "=")) TOKEN_EQUALS 0 0 =
          .out p1 q1 r := ⟨_, _, _, rfl⟩
    obtain ⟨t, ht⟩ := c8_token_cache.2.2.2 1 (parser_new (str2cus "="))
      TOKEN_EQUALS 0 0 p1 q1 r hrun
    exact ⟨p1, q1, r, t, hrun, ht⟩
